import Mathlib

/-!
A shallow embedding of `pysignalclirestapi/api.py` (the `SignalCliRestApi`
client class) and proofs about it.

Modelling conventions:
* Python/JSON values are `PyVal` (strings, ints, booleans, `None`, lists,
  tuples, dicts with string keys — the shapes that arise in this client).
* The HTTP transport is an oracle `Server : HttpRequest → Option HttpResponse`;
  `Option.none` models a transport exception raised by `requests`.
  A response carries its status code, the result of JSON-parsing its content
  (`body = Option.none` models a `json.loads` / `resp.json()` failure) and its
  raw content bytes (used by `get_attachment`).
* The local file system is `FileSystem : String → Option (List Nat)`;
  `Option.none` models an `open`/`read` failure for that path.
* Each public method becomes a function from the client, the server oracle
  (and the file system where files are read) to an `OpResult`: the Python
  return value or escaping exception, the list of HTTP requests issued (in
  order), and the post-call state of `self`.
* Escaping exceptions are `PyError`: `apiError` is `SignalCliRestApiError`
  (message value, plus the `raise_from` cause when one was attached), `raw`
  is any other Python exception escaping unwrapped.
-/

/-- Python values as they occur in this client (JSON data, tuples, None). -/
inductive PyVal where
  | str (s : String)
  | int (n : Int)
  | bool (b : Bool)
  | none
  | list (xs : List PyVal)
  | tuple (xs : List PyVal)
  | dict (kvs : List (String × PyVal))
deriving Repr

mutual

/-- Python `==` on the values that occur here: structural value equality. -/
def pyEq : PyVal → PyVal → Bool
  | .str a, .str b => a == b
  | .int a, .int b => a == b
  | .bool a, .bool b => a == b
  | .none, .none => true
  | .list xs, .list ys => pyEqList xs ys
  | .tuple xs, .tuple ys => pyEqList xs ys
  | .dict xs, .dict ys => pyEqDict xs ys
  | _, _ => false

/-- Elementwise Python `==` on lists of values. -/
def pyEqList : List PyVal → List PyVal → Bool
  | [], [] => true
  | x :: xs, y :: ys => pyEq x y && pyEqList xs ys
  | _, _ => false

/-- Elementwise Python `==` on dict entry lists. -/
def pyEqDict : List (String × PyVal) → List (String × PyVal) → Bool
  | [], [] => true
  | (k1, v1) :: xs, (k2, v2) :: ys => k1 == k2 && pyEq v1 v2 && pyEqDict xs ys
  | _, _ => false

end

/-- Low-level Python exceptions that the client code can encounter. -/
inductive LowError where
  | transport
  | parse
  | keyError (k : String)
  | typeError
  | valueError
  | fileErr (filename : String)
deriving Repr

/-- An exception escaping a public method: either a `SignalCliRestApiError`
(message value and, when raised via `raise_from`, the original cause) or a
raw unwrapped exception. -/
inductive PyError where
  | apiError (msg : PyVal) (cause : Option LowError)
  | raw (e : LowError)
deriving Repr

/-- Whether an escaping exception is the uniform `SignalCliRestApiError`. -/
def PyError.isApiError : PyError → Bool
  | .apiError _ _ => true
  | .raw _ => false

inductive HttpMethod where
  | get
  | post
  | put
  | delete
deriving Repr, DecidableEq

/-- An HTTP request as issued by `requests.<method>(url, json=..., auth=..., verify=...)`. -/
structure HttpRequest where
  method : HttpMethod
  url : String
  body : Option PyVal
  auth : Option (String × String)
  verify : Bool
deriving Repr

/-- An HTTP response: status code, JSON parse of the content (`Option.none`
when the content is not valid JSON), and the raw content bytes. -/
structure HttpResponse where
  status_code : Nat
  body : Option PyVal
  raw : List Nat
deriving Repr

/-- The remote server as an oracle; `Option.none` models a transport exception. -/
def Server := HttpRequest → Option HttpResponse

/-- The local file system; `Option.none` models a file I/O failure. -/
def FileSystem := String → Option (List Nat)

/-- The client configuration set in `SignalCliRestApi.__init__`. -/
structure SignalCliRestApi where
  base_url : String
  number : String
  auth : Option (String × String)
  verify_ssl : Bool
deriving Repr, DecidableEq

/-- Outcome of one public method call: the Python return value or escaping
exception, the HTTP requests issued in order, and the state of `self` after
the call. -/
structure OpResult (α : Type) where
  result : Except PyError α
  trace : List HttpRequest
  self : SignalCliRestApi
deriving Repr

/-- Python `dict[key]` / `list[key]` item access: a key lookup on a dict
(`KeyError` when absent), a `TypeError` on values not indexable by a string. -/
def PyVal.getItem : PyVal → String → Except LowError PyVal
  | .dict kvs, k =>
    match kvs.lookup k with
    | some v => .ok v
    | Option.none => .error (.keyError k)
  | _, _ => .error .typeError

/-- Python dict assignment `d[k] = v` on the underlying association list:
updates the existing entry in place or appends a new one. -/
def setEntry : List (String × PyVal) → String → PyVal → List (String × PyVal)
  | [], k, v => [(k, v)]
  | (k', v') :: rest, k, v =>
    if k' == k then (k, v) :: rest else (k', v') :: setEntry rest k v

/-- Python dict assignment `d[k] = v` (non-dict values are unreachable here). -/
def dictSet (d : PyVal) (k : String) (v : PyVal) : PyVal :=
  match d with
  | .dict kvs => .dict (setEntry kvs k v)
  | other => other

/-- Lookup of a dict field, used to state properties of built payloads. -/
def dictLookup (d : PyVal) (k : String) : Option PyVal :=
  match d with
  | .dict kvs => kvs.lookup k
  | _ => Option.none

/-- Boolean substring test, modelling Python `needle in haystack` on strings. -/
def strContainsAux (needle : List Char) : List Char → Bool
  | [] => needle.isEmpty
  | ch :: rest => needle.isPrefixOf (ch :: rest) || strContainsAux needle rest

/-- Boolean substring test on strings. -/
def strContains (needle hay : String) : Bool :=
  strContainsAux needle.toList hay.toList

/-- Python membership `x in container`: substring test on strings, element
membership on lists and tuples, key membership on dicts, `TypeError` on
non-containers. -/
def pyIn (x : PyVal) (container : PyVal) : Except LowError Bool :=
  match container with
  | .str hay =>
    match x with
    | .str needle => .ok (strContains needle hay)
    | _ => .error .typeError
  | .list xs => .ok (xs.any (pyEq x))
  | .tuple xs => .ok (xs.any (pyEq x))
  | .dict kvs =>
    match x with
    | .str k => .ok (kvs.any fun p => p.1 == k)
    | _ => .ok false
  | _ => .error .typeError

/-- Python 2-ary unpacking `a, b = v` for the values that occur here
(2-element lists and tuples; other shapes raise). -/
def pyUnpack2 : PyVal → Except LowError (PyVal × PyVal)
  | .list [a, b] => .ok (a, b)
  | .tuple [a, b] => .ok (a, b)
  | .list _ => .error .valueError
  | .tuple _ => .error .valueError
  | _ => .error .typeError

/-- Reads every named file in order, failing on the first unreadable one
(modelling the `open(filename, "rb")` loop). -/
def readAll (fs : FileSystem) : List String → Except LowError (List (List Nat))
  | [] => .ok []
  | f :: rest =>
    match fs f with
    | Option.none => .error (.fileErr f)
    | some content =>
      match readAll fs rest with
      | .error e => .error e
      | .ok cs => .ok (content :: cs)

/-- One base64 alphabet digit. -/
def base64Digit (n : Nat) : Char :=
  if n < 26 then Char.ofNat (65 + n)
  else if n < 52 then Char.ofNat (97 + (n - 26))
  else if n < 62 then Char.ofNat (48 + (n - 52))
  else if n = 62 then '+' else '/'

/-- Modelled from the spec: `helpers.bytes_to_base64` (the `helpers` module is
not part of the provided sources); per the spec it base64-encodes a raw byte
payload, here RFC 4648 base64 with `=` padding over a byte list. -/
def bytes_to_base64 : List Nat → String
  | [] => ""
  | [a] =>
    String.mk [base64Digit (a / 4 % 64), base64Digit (a % 4 * 16), '=', '=']
  | [a, b] =>
    String.mk [base64Digit (a / 4 % 64), base64Digit (a % 4 * 16 + b / 16 % 16),
      base64Digit (b % 16 * 4), '=']
  | a :: b :: c2 :: rest =>
    String.mk [base64Digit (a / 4 % 64), base64Digit (a % 4 * 16 + b / 16 % 16),
      base64Digit (b % 16 * 4 + c2 / 64 % 4), base64Digit (c2 % 64)]
      ++ bytes_to_base64 rest

/-! ## Request builders (one per call site in `api.py`) -/

/-- The GET issued by `api_info` and `mode` (`/v1/about`). -/
def aboutRequest (c : SignalCliRestApi) : HttpRequest :=
  ⟨.get, c.base_url ++ "/v1/about", Option.none, c.auth, c.verify_ssl⟩

/-- The POST issued by `create_group` (`/v1/groups/{number}`). -/
def createGroupRequest (c : SignalCliRestApi) (name : String) (members : List String) :
    HttpRequest :=
  ⟨.post, c.base_url ++ "/v1/groups/" ++ c.number,
    some (.dict [("members", .list (members.map .str)), ("name", .str name)]),
    c.auth, c.verify_ssl⟩

/-- The GET issued by `list_groups` (`/v1/groups/{number}`). -/
def groupsRequest (c : SignalCliRestApi) : HttpRequest :=
  ⟨.get, c.base_url ++ "/v1/groups/" ++ c.number, Option.none, c.auth, c.verify_ssl⟩

/-- The GET issued by `receive` (`/v1/receive/{number}`). -/
def receiveRequest (c : SignalCliRestApi) : HttpRequest :=
  ⟨.get, c.base_url ++ "/v1/receive/" ++ c.number, Option.none, c.auth, c.verify_ssl⟩

/-- The PUT issued by `update_profile` (`/v1/profiles/{number}`), with the
payload it was given. -/
def profileRequest (c : SignalCliRestApi) (data : PyVal) : HttpRequest :=
  ⟨.put, c.base_url ++ "/v1/profiles/" ++ c.number, some data, c.auth, c.verify_ssl⟩

/-- The POST issued by `send_message`, with the chosen url and built payload. -/
def sendRequest (c : SignalCliRestApi) (url : String) (data : PyVal) : HttpRequest :=
  ⟨.post, url, some data, c.auth, c.verify_ssl⟩

/-- The GET issued by `list_attachments` (`/v1/attachments`). -/
def attachmentsRequest (c : SignalCliRestApi) : HttpRequest :=
  ⟨.get, c.base_url ++ "/v1/attachments", Option.none, c.auth, c.verify_ssl⟩

/-- The GET issued by `get_attachment` (`/v1/attachments/{id}`). -/
def attachmentRequest (c : SignalCliRestApi) (attachment_id : String) : HttpRequest :=
  ⟨.get, c.base_url ++ "/v1/attachments/" ++ attachment_id, Option.none, c.auth, c.verify_ssl⟩

/-- The DELETE issued by `delete_attachment` (`/v1/attachments/{id}`). -/
def deleteAttachmentRequest (c : SignalCliRestApi) (attachment_id : String) : HttpRequest :=
  ⟨.delete, c.base_url ++ "/v1/attachments/" ++ attachment_id, Option.none, c.auth, c.verify_ssl⟩

/-! ## Shared error-path shape

Each status-checking method runs, on an unexpected status, the same block:

    json_resp = resp.json()
    if "error" in json_resp:
        raise SignalCliRestApiError(json_resp["error"])
    raise SignalCliRestApiError("Unknown error while <operation>")

inside a `try` whose handler re-raises `SignalCliRestApiError` unchanged and
wraps any other exception via `raise_from(SignalCliRestApiError(couldnt), exc)`.
`statusError couldnt unknown body` is the `SignalCliRestApiError` that escapes
from that block, where `body` is the JSON parse of the response content. -/

/-- The error escaping the shared unexpected-status block of `api.py`. -/
def statusError (couldnt unknown : String) (body : Option PyVal) : PyError :=
  match body with
  | Option.none => .apiError (.str couldnt) (some .parse)
  | some j =>
    match pyIn (.str "error") j with
    | .error e => .apiError (.str couldnt) (some e)
    | .ok true =>
      match j.getItem "error" with
      | .ok v => .apiError v Option.none
      | .error e => .apiError (.str couldnt) (some e)
    | .ok false => .apiError (.str unknown) Option.none

/-! ## The public methods of `SignalCliRestApi` -/

/-- Method `SignalCliRestApi.api_info` (lines 52-77): GET `/v1/about`; a 404 returns
the literal Python list `["v1", 1]`; otherwise the parsed body's `"versions"`
entry and its `"build"` entry (defaulting to `1` on `KeyError`) are returned
as a tuple; any failure is wrapped as
`SignalCliRestApiError("Couldn't determine REST API version")` with cause. -/
def api_info (c : SignalCliRestApi) (srv : Server) : OpResult PyVal :=
  let req := aboutRequest c
  match srv req with
  | Option.none =>
    ⟨.error (.apiError (.str "Couldn't determine REST API version") (some .transport)), [req], c⟩
  | some resp =>
    if resp.status_code == 404 then
      ⟨.ok (.list [.str "v1", .int 1]), [req], c⟩
    else
      match resp.body with
      | Option.none =>
        ⟨.error (.apiError (.str "Couldn't determine REST API version") (some .parse)), [req], c⟩
      | some data =>
        match data.getItem "versions" with
        | .error e =>
          ⟨.error (.apiError (.str "Couldn't determine REST API version") (some e)), [req], c⟩
        | .ok api_versions =>
          match data.getItem "build" with
          | .ok build_nr => ⟨.ok (.tuple [api_versions, build_nr]), [req], c⟩
          | .error (.keyError _) => ⟨.ok (.tuple [api_versions, .int 1]), [req], c⟩
          | .error e =>
            ⟨.error (.apiError (.str "Couldn't determine REST API version") (some e)), [req], c⟩

/-- Method `SignalCliRestApi.mode` (lines 79-96): GET `/v1/about`, parse the body,
return its `"mode"` entry, defaulting to `"unknown"` on `KeyError`. The method
body has no try/except, so transport, parse and non-`KeyError` lookup failures
escape raw. -/
def mode (c : SignalCliRestApi) (srv : Server) : OpResult PyVal :=
  let req := aboutRequest c
  match srv req with
  | Option.none => ⟨.error (.raw .transport), [req], c⟩
  | some resp =>
    match resp.body with
    | Option.none => ⟨.error (.raw .parse), [req], c⟩
    | some data =>
      match data.getItem "mode" with
      | .ok v => ⟨.ok v, [req], c⟩
      | .error (.keyError _) => ⟨.ok (.str "unknown"), [req], c⟩
      | .error e => ⟨.error (.raw e), [req], c⟩

/-- Method `SignalCliRestApi.create_group` (lines 98-126): POST name and members; on
a status other than 200/201 run the shared error block; on success return the
body's `"id"` entry; other failures are wrapped as
`SignalCliRestApiError("Couldn't create Signal Messenger group: ")` with cause. -/
def create_group (c : SignalCliRestApi) (srv : Server) (name : String)
    (members : List String) : OpResult PyVal :=
  let req := createGroupRequest c name members
  match srv req with
  | Option.none =>
    ⟨.error (.apiError (.str "Couldn't create Signal Messenger group: ") (some .transport)),
      [req], c⟩
  | some resp =>
    if resp.status_code != 201 && resp.status_code != 200 then
      ⟨.error (statusError "Couldn't create Signal Messenger group: "
        "Unknown error while creating Signal Messenger group" resp.body), [req], c⟩
    else
      match resp.body with
      | Option.none =>
        ⟨.error (.apiError (.str "Couldn't create Signal Messenger group: ") (some .parse)),
          [req], c⟩
      | some j =>
        match j.getItem "id" with
        | .ok v => ⟨.ok v, [req], c⟩
        | .error e =>
          ⟨.error (.apiError (.str "Couldn't create Signal Messenger group: ") (some e)),
            [req], c⟩

/-- Method `SignalCliRestApi.list_groups` (lines 128-150): GET the groups collection,
parse the body (before the status check, as in the source), run the shared
error block on a status other than 200, else return the parsed body. -/
def list_groups (c : SignalCliRestApi) (srv : Server) : OpResult PyVal :=
  let req := groupsRequest c
  match srv req with
  | Option.none =>
    ⟨.error (.apiError (.str "Couldn't list Signal Messenger groups: ") (some .transport)),
      [req], c⟩
  | some resp =>
    match resp.body with
    | Option.none =>
      ⟨.error (.apiError (.str "Couldn't list Signal Messenger groups: ") (some .parse)),
        [req], c⟩
    | some j =>
      if resp.status_code != 200 then
        ⟨.error (statusError "Couldn't list Signal Messenger groups: "
          "Unknown error while listing Signal Messenger groups" (some j)), [req], c⟩
      else ⟨.ok j, [req], c⟩

/-- Method `SignalCliRestApi.receive` (lines 152-174): GET the receive endpoint,
parse the body (before the status check), run the shared error block on a
status other than 200, else return the parsed body. -/
def receive (c : SignalCliRestApi) (srv : Server) : OpResult PyVal :=
  let req := receiveRequest c
  match srv req with
  | Option.none =>
    ⟨.error (.apiError (.str "Couldn't receive Signal Messenger data: ") (some .transport)),
      [req], c⟩
  | some resp =>
    match resp.body with
    | Option.none =>
      ⟨.error (.apiError (.str "Couldn't receive Signal Messenger data: ") (some .parse)),
        [req], c⟩
    | some j =>
      if resp.status_code != 200 then
        ⟨.error (statusError "Couldn't receive Signal Messenger data: "
          "Unknown error while receiving Signal Messenger data" (some j)), [req], c⟩
      else ⟨.ok j, [req], c⟩

/-- The PUT and response handling of `update_profile` (lines 197-203). -/
def update_profile_put (c : SignalCliRestApi) (srv : Server) (data : PyVal) :
    OpResult PyVal :=
  let req := profileRequest c data
  match srv req with
  | Option.none =>
    ⟨.error (.apiError (.str "Couldn't update profile: ") (some .transport)), [req], c⟩
  | some resp =>
    if resp.status_code != 204 then
      ⟨.error (statusError "Couldn't update profile: "
        "Unknown error while updating profile" resp.body), [req], c⟩
    else ⟨.ok .none, [req], c⟩

/-- Method `SignalCliRestApi.update_profile` (lines 176-207): build `{"name": name}`,
add a base64 `"base64_avatar"` read from `filename` when one is given (a read
failure is wrapped before any request is issued), PUT it, and expect 204. -/
def update_profile (c : SignalCliRestApi) (srv : Server) (fs : FileSystem)
    (name : String) (filename : Option String) : OpResult PyVal :=
  let data := PyVal.dict [("name", .str name)]
  match filename with
  | Option.none => update_profile_put c srv data
  | some f =>
    match fs f with
    | Option.none =>
      ⟨.error (.apiError (.str "Couldn't update profile: ") (some (.fileErr f))), [], c⟩
    | some content =>
      update_profile_put c srv (dictSet data "base64_avatar" (.str (bytes_to_base64 content)))

/-- The POST and response handling of `send_message` (lines 259-270): POST the
built payload to the chosen url, expect 201 (returning `None`), run the shared
error block otherwise; `tr` is the trace already issued (the `api_info` GET). -/
def send_post (c : SignalCliRestApi) (srv : Server) (url : String) (data : PyVal)
    (tr : List HttpRequest) : OpResult PyVal :=
  let req := sendRequest c url data
  match srv req with
  | Option.none =>
    ⟨.error (.apiError (.str "Couldn't send signal message") (some .transport)),
      tr ++ [req], c⟩
  | some resp =>
    if resp.status_code != 201 then
      ⟨.error (statusError "Couldn't send signal message"
        "Unknown error while sending signal message" resp.body), tr ++ [req], c⟩
    else ⟨.ok .none, tr ++ [req], c⟩

/-- Lines 227-270 of `send_message`, after the multi-attachment capability
check: choose the url by a `"v2" in api_versions` test (line 229, outside the
`try`, so its failures escape raw), build the payload
`{"message": ..., "number": ..., "recipients": ...}`, and inside the `try`
(failures wrapped as `SignalCliRestApiError("Couldn't send signal message")`)
re-test `"v2" in api_versions` (line 240): on the v2 path base64-encode the
byte attachments and then the file attachments into `"base64_attachments"`;
on the legacy path base64-encode the single file into `"base64_attachment"`
only when exactly one filename was given; then POST. -/
def send_message_after_check (c : SignalCliRestApi) (srv : Server) (fs : FileSystem)
    (message : String) (recipients : List String) (filenames : Option (List String))
    (attachments_as_bytes : Option (List (List Nat))) (api_versions : PyVal)
    (tr : List HttpRequest) : OpResult PyVal :=
  match pyIn (.str "v2") api_versions with
  | .error e => ⟨.error (.raw e), tr, c⟩
  | .ok hasV2 =>
    let url := if hasV2 then c.base_url ++ "/v2/send" else c.base_url ++ "/v1/send"
    let data := PyVal.dict [("message", .str message), ("number", .str c.number),
      ("recipients", .list (recipients.map .str))]
    match pyIn (.str "v2") api_versions with
    | .error e => ⟨.error (.apiError (.str "Couldn't send signal message") (some e)), tr, c⟩
    | .ok true =>
      let base64_attachments :=
        match attachments_as_bytes with
        | Option.none => []
        | some l => l.map bytes_to_base64
      match readAll fs (match filenames with | Option.none => [] | some fns => fns) with
      | .error e => ⟨.error (.apiError (.str "Couldn't send signal message") (some e)), tr, c⟩
      | .ok contents =>
        send_post c srv url
          (dictSet data "base64_attachments"
            (.list ((base64_attachments ++ contents.map bytes_to_base64).map .str))) tr
    | .ok false =>
      match filenames with
      | some [f] =>
        match fs f with
        | Option.none =>
          ⟨.error (.apiError (.str "Couldn't send signal message") (some (.fileErr f))), tr, c⟩
        | some content =>
          send_post c srv url (dictSet data "base64_attachment"
            (.str (bytes_to_base64 content))) tr
      | _ => send_post c srv url data tr

/-- Method `SignalCliRestApi.send_message` (lines 209-270): query `api_info` (its
`SignalCliRestApiError` propagates), unpack its result into
`api_versions, build_nr`, and when more than one filename was given test
`"v2" in api_versions` (line 223, outside the `try`): without v2 raise the
capability `SignalCliRestApiError` before any further request; then continue
with endpoint selection, payload building and the POST. -/
def send_message (c : SignalCliRestApi) (srv : Server) (fs : FileSystem)
    (message : String) (recipients : List String) (filenames : Option (List String))
    (attachments_as_bytes : Option (List (List Nat))) : OpResult PyVal :=
  match (api_info c srv).result with
  | .error e => ⟨.error e, (api_info c srv).trace, c⟩
  | .ok ret =>
    match pyUnpack2 ret with
    | .error e => ⟨.error (.raw e), (api_info c srv).trace, c⟩
    | .ok (api_versions, _build_nr) =>
      if (match filenames with
          | some fns => decide (fns.length > 1)
          | Option.none => false) then
        match pyIn (.str "v2") api_versions with
        | .error e => ⟨.error (.raw e), (api_info c srv).trace, c⟩
        | .ok false =>
          ⟨.error (.apiError (.str ("This signal-cli-rest-api version is not capable of "
            ++ "sending multiple attachments. Please upgrade your signal-cli-rest-api "
            ++ "docker container!")) Option.none), (api_info c srv).trace, c⟩
        | .ok true =>
          send_message_after_check c srv fs message recipients filenames
            attachments_as_bytes api_versions (api_info c srv).trace
      else
        send_message_after_check c srv fs message recipients filenames
          attachments_as_bytes api_versions (api_info c srv).trace

/-- Method `SignalCliRestApi.list_attachments` (lines 272-294): GET the attachment
collection, run the shared error block on a status other than 200, else
return the parsed body. -/
def list_attachments (c : SignalCliRestApi) (srv : Server) : OpResult PyVal :=
  let req := attachmentsRequest c
  match srv req with
  | Option.none =>
    ⟨.error (.apiError (.str "Couldn't list attachments: ") (some .transport)), [req], c⟩
  | some resp =>
    if resp.status_code != 200 then
      ⟨.error (statusError "Couldn't list attachments: "
        "Unknown error while listing attachments" resp.body), [req], c⟩
    else
      match resp.body with
      | Option.none =>
        ⟨.error (.apiError (.str "Couldn't list attachments: ") (some .parse)), [req], c⟩
      | some j => ⟨.ok j, [req], c⟩

/-- Method `SignalCliRestApi.get_attachment` (lines 296-319): GET one attachment, run
the shared error block on a status other than 200, else return the raw
response content bytes. -/
def get_attachment (c : SignalCliRestApi) (srv : Server) (attachment_id : String) :
    OpResult (List Nat) :=
  let req := attachmentRequest c attachment_id
  match srv req with
  | Option.none =>
    ⟨.error (.apiError (.str "Couldn't get attachment: ") (some .transport)), [req], c⟩
  | some resp =>
    if resp.status_code != 200 then
      ⟨.error (statusError "Couldn't get attachment: "
        "Unknown error while getting attachment" resp.body), [req], c⟩
    else ⟨.ok resp.raw, [req], c⟩

/-- Method `SignalCliRestApi.delete_attachment` (lines 321-342): DELETE one
attachment, run the shared error block on a status other than 204, else
return `None`. -/
def delete_attachment (c : SignalCliRestApi) (srv : Server) (attachment_id : String) :
    OpResult PyVal :=
  let req := deleteAttachmentRequest c attachment_id
  match srv req with
  | Option.none =>
    ⟨.error (.apiError (.str "Couldn't delete attachment: ") (some .transport)), [req], c⟩
  | some resp =>
    if resp.status_code != 204 then
      ⟨.error (statusError "Couldn't delete attachment: "
        "Unknown error while deleting attachment" resp.body), [req], c⟩
    else ⟨.ok .none, [req], c⟩

/-! ## Helper lemmas -/

/-- Function `api_info` issues exactly the one GET to `/v1/about`. -/
theorem api_info_trace (c : SignalCliRestApi) (srv : Server) :
    (api_info c srv).trace = [aboutRequest c] := by
  unfold api_info
  dsimp only
  repeat (first | rfl | split)

/-- Function `api_info` leaves the client unchanged. -/
theorem api_info_self (c : SignalCliRestApi) (srv : Server) :
    (api_info c srv).self = c := by
  unfold api_info
  dsimp only
  repeat (first | rfl | split)

/-- The shared unexpected-status block always raises the uniform error kind. -/
theorem statusError_isApiError (a b : String) (o : Option PyVal) :
    (statusError a b o).isApiError = true := by
  unfold statusError
  repeat (first | rfl | split)

/-- A successful association-list lookup means the key test succeeds somewhere. -/
theorem any_of_lookup_some :
    ∀ (kvs : List (String × PyVal)) (k : String) (v : PyVal),
      kvs.lookup k = some v → (kvs.any fun p => p.1 == k) = true := by
  intro kvs k v
  induction kvs with
  | nil => intro h; simp [List.lookup] at h
  | cons e rest ih =>
    obtain ⟨k', v'⟩ := e
    intro h
    simp only [List.any_cons, Bool.or_eq_true]
    by_cases hk : k' = k
    · left; simp [hk]
    · right
      apply ih
      rw [List.lookup] at h
      have hbeq : (k == k') = false := beq_eq_false_iff_ne.mpr fun hh => hk hh.symm
      rwa [hbeq] at h

/-- A failed association-list lookup means the key test fails everywhere. -/
theorem any_of_lookup_none :
    ∀ (kvs : List (String × PyVal)) (k : String),
      kvs.lookup k = Option.none → (kvs.any fun p => p.1 == k) = false := by
  intro kvs k
  induction kvs with
  | nil => intro _; rfl
  | cons e rest ih =>
    obtain ⟨k', v'⟩ := e
    intro h
    rw [List.lookup] at h
    by_cases hk : k' = k
    · subst hk; simp at h
    · have hbeq : (k == k') = false := beq_eq_false_iff_ne.mpr fun hh => hk hh.symm
      simp only [hbeq] at h
      rw [List.any_cons, ih h]
      simp [hk]

/-- On an unparseable error body, the shared block raises the wrapped
operation message with the parse failure as cause. -/
theorem statusError_of_parse_failure (a b : String) :
    statusError a b Option.none = .apiError (.str a) (some .parse) := rfl

/-- On a JSON-object error body with a string `"error"` field, the shared
block raises exactly that string as the message, with no cause. -/
theorem statusError_of_error_field (a b : String) (kvs : List (String × PyVal))
    (s : String) (h : kvs.lookup "error" = some (.str s)) :
    statusError a b (some (.dict kvs)) = .apiError (.str s) Option.none := by
  unfold statusError pyIn
  dsimp only
  rw [any_of_lookup_some kvs "error" (.str s) h]
  unfold PyVal.getItem
  dsimp only
  rw [h]

/-- On a JSON-object error body without an `"error"` field, the shared block
raises the generic unknown-error message, with no cause. -/
theorem statusError_of_no_error_field (a b : String) (kvs : List (String × PyVal))
    (h : kvs.lookup "error" = Option.none) :
    statusError a b (some (.dict kvs)) = .apiError (.str b) Option.none := by
  unfold statusError pyIn
  dsimp only
  rw [any_of_lookup_none kvs "error" h]

/-- Function `send_post` always issues exactly its one POST after the given trace. -/
theorem send_post_trace (c : SignalCliRestApi) (srv : Server) (url : String)
    (data : PyVal) (tr : List HttpRequest) :
    (send_post c srv url data tr).trace = tr ++ [sendRequest c url data] := by
  unfold send_post
  dsimp only
  repeat (first | rfl | split)

/-- Function `send_post` leaves the client unchanged. -/
theorem send_post_self (c : SignalCliRestApi) (srv : Server) (url : String)
    (data : PyVal) (tr : List HttpRequest) :
    (send_post c srv url data tr).self = c := by
  unfold send_post
  dsimp only
  repeat (first | rfl | split)

/-! ## Concrete fixtures for witnesses and counterexamples -/

/-- A sample client configuration. -/
def cEx : SignalCliRestApi :=
  ⟨"http://localhost:8080", "+491721234567", Option.none, true⟩

/-- A server answering every request with 404 and an unparseable body. -/
def srv404 : Server := fun _ => some ⟨404, Option.none, []⟩

/-- A server advertising only the "v1" version tag on GETs and answering
everything else with 201. -/
def srvV1 : Server := fun r =>
  match r.method with
  | .get => some ⟨200, some (.dict [("versions", .list [.str "v1"])]), []⟩
  | _ => some ⟨201, some (.dict []), []⟩

/-- A server advertising the "v1" and "v2" version tags on GETs and answering
everything else with 201. -/
def srvV2 : Server := fun r =>
  match r.method with
  | .get => some ⟨200, some (.dict [("versions", .list [.str "v1", .str "v2"])]), []⟩
  | _ => some ⟨201, some (.dict []), []⟩

/-- A file system holding two one-byte files. -/
def fsEx : FileSystem := fun f =>
  if f = "a.png" then some [1] else if f = "b.png" then some [2] else Option.none

/-! ## C1 -/

/-- C1: for a 404 on the info endpoint, `api_info` does return without
raising, but its value is the flat Python list `["v1", 1]` — which unpacks to
the bare string `"v1"` and `1` — not the claimed pair `(["v1"], 1)` whose
first component is the list of version tags `["v1"]`. -/
theorem api_info_404_returns_flat_list (c : SignalCliRestApi) (srv : Server)
    (resp : HttpResponse) (h : srv (aboutRequest c) = some resp)
    (h404 : resp.status_code = 404) :
    (api_info c srv).result = .ok (.list [.str "v1", .int 1])
    ∧ pyUnpack2 (.list [.str "v1", .int 1]) = .ok (.str "v1", .int 1)
    ∧ PyVal.list [.str "v1", .int 1] ≠ .tuple [.list [.str "v1"], .int 1] := by
  refine ⟨?_, rfl, by simp⟩
  unfold api_info
  dsimp only
  rw [h]
  simp [h404]

/-- C1 witness: the theorem applied to a concrete 404 server. -/
theorem api_info_404_returns_flat_list_witness :
    (api_info cEx srv404).result = .ok (.list [.str "v1", .int 1]) :=
  (api_info_404_returns_flat_list cEx srv404 ⟨404, Option.none, []⟩ rfl rfl).1

/-! ## C2 -/

/-- C2 counterexample: sending two file attachments against a server
advertising only "v1" raises the capability error, but an HTTP request — the
`api_info` capability GET — has already been issued by the send operation
before the error, so the trace at the error is not empty. -/
theorem send_message_request_before_capability_error :
    (send_message cEx srvV1 (fun _ => Option.none) "hi" ["+4917611111111"]
        (some ["a.png", "b.png"]) Option.none).result =
      .error (.apiError (.str ("This signal-cli-rest-api version is not capable of "
        ++ "sending multiple attachments. Please upgrade your signal-cli-rest-api "
        ++ "docker container!")) Option.none)
    ∧ (send_message cEx srvV1 (fun _ => Option.none) "hi" ["+4917611111111"]
        (some ["a.png", "b.png"]) Option.none).trace ≠ [] := by
  constructor
  · rfl
  · have h : (send_message cEx srvV1 (fun _ => Option.none) "hi" ["+4917611111111"]
        (some ["a.png", "b.png"]) Option.none).trace = [aboutRequest cEx] := rfl
    rw [h]
    simp

/-- C2 (amended): with more than one file attachment and no "v2" tag in the
unpacked versions, `send_message` raises the capability error before the send
POST: the only HTTP request it has issued is the single capability-info GET. -/
theorem send_message_multi_without_v2 (c : SignalCliRestApi) (srv : Server)
    (fs : FileSystem) (message : String) (recipients : List String)
    (fns : List String) (attachments_as_bytes : Option (List (List Nat)))
    (v vers bld : PyVal)
    (hinfo : (api_info c srv).result = .ok v)
    (hu : pyUnpack2 v = .ok (vers, bld))
    (hlen : 1 < fns.length)
    (hv2 : pyIn (.str "v2") vers = .ok false) :
    (send_message c srv fs message recipients (some fns) attachments_as_bytes).result =
      .error (.apiError (.str ("This signal-cli-rest-api version is not capable of "
        ++ "sending multiple attachments. Please upgrade your signal-cli-rest-api "
        ++ "docker container!")) Option.none)
    ∧ (send_message c srv fs message recipients (some fns) attachments_as_bytes).trace =
      [aboutRequest c] := by
  unfold send_message
  rw [hinfo]
  dsimp only
  rw [hu]
  dsimp only
  have hl : decide (fns.length > 1) = true := by simp [hlen]
  simp only [hl, eq_self_iff_true, if_true]
  rw [hv2]
  exact ⟨rfl, api_info_trace c srv⟩

/-- C2 witness: the amended theorem applied to a concrete "v1"-only server. -/
theorem send_message_multi_without_v2_witness :
    (send_message cEx srvV1 (fun _ => Option.none) "hi" ["+4917611111111"]
        (some ["a.png", "b.png"]) Option.none).trace = [aboutRequest cEx] :=
  (send_message_multi_without_v2 cEx srvV1 (fun _ => Option.none) "hi"
    ["+4917611111111"] ["a.png", "b.png"] Option.none
    (.tuple [.list [.str "v1"], .int 1]) (.list [.str "v1"]) (.int 1)
    rfl rfl (by decide) rfl).2

/-! ## Payload characterizations of the post-check phase of `send_message` -/

/-- On the v2 path with readable files, the send becomes a POST to the v2
endpoint whose payload collects the byte attachments and then the file
attachments, base64-encoded, in `"base64_attachments"`. -/
theorem after_check_v2 (c : SignalCliRestApi) (srv : Server) (fs : FileSystem)
    (message : String) (recipients : List String) (filenames : Option (List String))
    (attachments_as_bytes : Option (List (List Nat))) (vers : PyVal)
    (tr : List HttpRequest) (contents : List (List Nat))
    (hv2 : pyIn (.str "v2") vers = .ok true)
    (hread : readAll fs (match filenames with | Option.none => [] | some fns => fns) =
      .ok contents) :
    send_message_after_check c srv fs message recipients filenames
        attachments_as_bytes vers tr =
      send_post c srv (c.base_url ++ "/v2/send")
        (.dict [("message", .str message), ("number", .str c.number),
          ("recipients", .list (recipients.map .str)),
          ("base64_attachments",
            .list (((match attachments_as_bytes with
                     | Option.none => []
                     | some l => l.map bytes_to_base64)
              ++ contents.map bytes_to_base64).map .str))]) tr := by
  unfold send_message_after_check
  rw [hv2]
  dsimp only
  rw [hread]
  rfl

/-- On the legacy path with exactly one readable file, the send becomes a
POST to the v1 endpoint whose payload holds that file base64-encoded in the
scalar `"base64_attachment"`. -/
theorem after_check_legacy_one (c : SignalCliRestApi) (srv : Server) (fs : FileSystem)
    (message : String) (recipients : List String) (f : String) (content : List Nat)
    (attachments_as_bytes : Option (List (List Nat))) (vers : PyVal)
    (tr : List HttpRequest)
    (hv2 : pyIn (.str "v2") vers = .ok false)
    (hf : fs f = some content) :
    send_message_after_check c srv fs message recipients (some [f])
        attachments_as_bytes vers tr =
      send_post c srv (c.base_url ++ "/v1/send")
        (.dict [("message", .str message), ("number", .str c.number),
          ("recipients", .list (recipients.map .str)),
          ("base64_attachment", .str (bytes_to_base64 content))]) tr := by
  unfold send_message_after_check
  rw [hv2]
  dsimp only
  rw [hf]
  rfl

/-- On the legacy path with no filenames at all, the send becomes a POST to
the v1 endpoint whose payload carries no attachment field. -/
theorem after_check_legacy_none (c : SignalCliRestApi) (srv : Server) (fs : FileSystem)
    (message : String) (recipients : List String)
    (attachments_as_bytes : Option (List (List Nat))) (vers : PyVal)
    (tr : List HttpRequest)
    (hv2 : pyIn (.str "v2") vers = .ok false) :
    send_message_after_check c srv fs message recipients Option.none
        attachments_as_bytes vers tr =
      send_post c srv (c.base_url ++ "/v1/send")
        (.dict [("message", .str message), ("number", .str c.number),
          ("recipients", .list (recipients.map .str))]) tr := by
  unfold send_message_after_check
  rw [hv2]
  rfl

/-- On the legacy path with an empty filename list, the send becomes a POST
to the v1 endpoint whose payload carries no attachment field. -/
theorem after_check_legacy_nil (c : SignalCliRestApi) (srv : Server) (fs : FileSystem)
    (message : String) (recipients : List String)
    (attachments_as_bytes : Option (List (List Nat))) (vers : PyVal)
    (tr : List HttpRequest)
    (hv2 : pyIn (.str "v2") vers = .ok false) :
    send_message_after_check c srv fs message recipients (some [])
        attachments_as_bytes vers tr =
      send_post c srv (c.base_url ++ "/v1/send")
        (.dict [("message", .str message), ("number", .str c.number),
          ("recipients", .list (recipients.map .str))]) tr := by
  unfold send_message_after_check
  rw [hv2]
  rfl

/-! ## C3 -/

/-- C3: against a server whose advertised (unpacked) version tags contain
"v2", all attachments — byte-sourced first, then file-sourced, in that
order — are base64-encoded into the single ordered `"base64_attachments"`
list field of the POSTed payload, which targets the v2 endpoint. -/
theorem send_message_v2_attachments (c : SignalCliRestApi) (srv : Server)
    (fs : FileSystem) (message : String) (recipients : List String)
    (fns : List String) (bs : List (List Nat)) (v vers bld : PyVal)
    (contents : List (List Nat))
    (hinfo : (api_info c srv).result = .ok v)
    (hu : pyUnpack2 v = .ok (vers, bld))
    (hv2 : pyIn (.str "v2") vers = .ok true)
    (hread : readAll fs fns = .ok contents) :
    (send_message c srv fs message recipients (some fns) (some bs)).trace =
      [aboutRequest c,
        sendRequest c (c.base_url ++ "/v2/send")
          (.dict [("message", .str message), ("number", .str c.number),
            ("recipients", .list (recipients.map .str)),
            ("base64_attachments",
              .list ((bs.map bytes_to_base64 ++ contents.map bytes_to_base64).map .str))])] := by
  have hafter := after_check_v2 c srv fs message recipients (some fns) (some bs) vers
    [aboutRequest c] contents hv2 hread
  unfold send_message
  rw [hinfo]
  dsimp only
  rw [hu]
  dsimp only
  rw [api_info_trace]
  by_cases hlen : 1 < fns.length
  · have hl : decide (fns.length > 1) = true := by simp [hlen]
    simp only [hl, eq_self_iff_true, if_true]
    rw [hv2]
    dsimp only
    rw [hafter, send_post_trace]
    rfl
  · have hl : decide (fns.length > 1) = false := by simp [hlen]
    simp only [hl, Bool.false_eq_true, if_false]
    rw [hafter, send_post_trace]
    rfl

/-- C3 witness: one byte attachment and one file attachment against a
concrete v2-capable server. -/
theorem send_message_v2_attachments_witness :
    (send_message cEx srvV2 fsEx "hi" ["+4917611111111"] (some ["a.png"])
        (some [[3]])).trace =
      [aboutRequest cEx,
        sendRequest cEx (cEx.base_url ++ "/v2/send")
          (.dict [("message", .str "hi"), ("number", .str cEx.number),
            ("recipients", .list [.str "+4917611111111"]),
            ("base64_attachments",
              .list (([[3]].map bytes_to_base64
                ++ [[1]].map bytes_to_base64).map .str))])] :=
  send_message_v2_attachments cEx srvV2 fsEx "hi" ["+4917611111111"] ["a.png"] [[3]]
    (.tuple [.list [.str "v1", .str "v2"], .int 1]) (.list [.str "v1", .str "v2"])
    (.int 1) [[1]] rfl rfl rfl rfl

/-! ## C4 -/

/-- C4: against a server whose advertised (unpacked) version tags lack "v2":
exactly one readable file attachment is base64-encoded into the scalar
`"base64_attachment"` field; with no file attachment (absent or empty list)
no attachment field is sent; and in each case the payload is the same for
every value of `attachments_as_bytes`, so byte attachments are silently
dropped from the legacy payload. -/
theorem send_message_legacy_payloads (c : SignalCliRestApi) (srv : Server)
    (fs : FileSystem) (message : String) (recipients : List String)
    (attachments_as_bytes : Option (List (List Nat))) (v vers bld : PyVal)
    (hinfo : (api_info c srv).result = .ok v)
    (hu : pyUnpack2 v = .ok (vers, bld))
    (hv2 : pyIn (.str "v2") vers = .ok false) :
    (∀ f content, fs f = some content →
      (send_message c srv fs message recipients (some [f]) attachments_as_bytes).trace =
        [aboutRequest c,
          sendRequest c (c.base_url ++ "/v1/send")
            (.dict [("message", .str message), ("number", .str c.number),
              ("recipients", .list (recipients.map .str)),
              ("base64_attachment", .str (bytes_to_base64 content))])])
    ∧ ((send_message c srv fs message recipients Option.none attachments_as_bytes).trace =
        [aboutRequest c,
          sendRequest c (c.base_url ++ "/v1/send")
            (.dict [("message", .str message), ("number", .str c.number),
              ("recipients", .list (recipients.map .str))])])
    ∧ ((send_message c srv fs message recipients (some []) attachments_as_bytes).trace =
        [aboutRequest c,
          sendRequest c (c.base_url ++ "/v1/send")
            (.dict [("message", .str message), ("number", .str c.number),
              ("recipients", .list (recipients.map .str))])]) := by
  refine ⟨?_, ?_, ?_⟩
  · intro f content hf
    unfold send_message
    rw [hinfo]
    dsimp only
    rw [hu]
    dsimp only
    rw [api_info_trace]
    have hl : decide (([f] : List String).length > 1) = false := by simp
    simp only [hl, Bool.false_eq_true, if_false]
    rw [after_check_legacy_one c srv fs message recipients f content
      attachments_as_bytes vers [aboutRequest c] hv2 hf, send_post_trace]
    rfl
  · unfold send_message
    rw [hinfo]
    dsimp only
    rw [hu]
    dsimp only
    rw [api_info_trace]
    simp only [Bool.false_eq_true, if_false]
    rw [after_check_legacy_none c srv fs message recipients
      attachments_as_bytes vers [aboutRequest c] hv2, send_post_trace]
    rfl
  · unfold send_message
    rw [hinfo]
    dsimp only
    rw [hu]
    dsimp only
    rw [api_info_trace]
    have hl : decide (([] : List String).length > 1) = false := by simp
    simp only [hl, Bool.false_eq_true, if_false]
    rw [after_check_legacy_nil c srv fs message recipients
      attachments_as_bytes vers [aboutRequest c] hv2, send_post_trace]
    rfl

/-- C4 witness: one file attachment plus a byte attachment against a concrete
"v1"-only server; the byte attachment does not appear in the payload. -/
theorem send_message_legacy_payloads_witness :
    (send_message cEx srvV1 fsEx "hi" ["+4917611111111"] (some ["a.png"])
        (some [[3]])).trace =
      [aboutRequest cEx,
        sendRequest cEx (cEx.base_url ++ "/v1/send")
          (.dict [("message", .str "hi"), ("number", .str cEx.number),
            ("recipients", .list [.str "+4917611111111"]),
            ("base64_attachment", .str (bytes_to_base64 [1]))])] :=
  (send_message_legacy_payloads cEx srvV1 fsEx "hi" ["+4917611111111"] (some [[3]])
    (.tuple [.list [.str "v1"], .int 1]) (.list [.str "v1"]) (.int 1)
    rfl rfl rfl).1 "a.png" [1] rfl

/-! ## C7 -/

/-- Any request issued by the post-check phase beyond the incoming trace is a
POST to the url selected by the "v2" membership test. -/
theorem after_check_post_url (c : SignalCliRestApi) (srv : Server) (fs : FileSystem)
    (message : String) (recipients : List String) (filenames : Option (List String))
    (attachments_as_bytes : Option (List (List Nat))) (vers : PyVal)
    (tr : List HttpRequest) (hasV2 : Bool)
    (hv : pyIn (.str "v2") vers = .ok hasV2) :
    ∀ r ∈ (send_message_after_check c srv fs message recipients filenames
        attachments_as_bytes vers tr).trace,
      r ∈ tr ∨ (r.method = .post ∧
        r.url = (if hasV2 then c.base_url ++ "/v2/send" else c.base_url ++ "/v1/send")) := by
  intro r hr
  unfold send_message_after_check at hr
  rw [hv] at hr
  cases hasV2
  · dsimp only at hr
    simp only [Bool.false_eq_true, if_false] at hr ⊢
    repeat' split at hr
    all_goals
      first
      | exact Or.inl hr
      | (rw [send_post_trace] at hr
         rcases List.mem_append.mp hr with h | h
         · exact Or.inl h
         · right
           rw [List.mem_singleton.mp h]
           exact ⟨rfl, rfl⟩)
  · dsimp only at hr
    simp only [eq_self_iff_true, if_true] at hr ⊢
    repeat' split at hr
    all_goals
      first
      | exact Or.inl hr
      | (rw [send_post_trace] at hr
         rcases List.mem_append.mp hr with h | h
         · exact Or.inl h
         · right
           rw [List.mem_singleton.mp h]
           exact ⟨rfl, rfl⟩)

/-- C7: the send POST targets the v2 endpoint `/v2/send` exactly when the
unpacked version tags contain "v2", and the legacy endpoint `/v1/send`
otherwise. -/
theorem send_message_endpoint_selection (c : SignalCliRestApi) (srv : Server)
    (fs : FileSystem) (message : String) (recipients : List String)
    (filenames : Option (List String)) (attachments_as_bytes : Option (List (List Nat)))
    (v vers bld : PyVal)
    (hinfo : (api_info c srv).result = .ok v)
    (hu : pyUnpack2 v = .ok (vers, bld)) :
    (pyIn (.str "v2") vers = .ok true →
      ∀ r ∈ (send_message c srv fs message recipients filenames
          attachments_as_bytes).trace,
        r.method = .post → r.url = c.base_url ++ "/v2/send")
    ∧ (pyIn (.str "v2") vers = .ok false →
      ∀ r ∈ (send_message c srv fs message recipients filenames
          attachments_as_bytes).trace,
        r.method = .post → r.url = c.base_url ++ "/v1/send") := by
  constructor
  · intro hv2 r hr hm
    unfold send_message at hr
    rw [hinfo] at hr
    dsimp only at hr
    rw [hu] at hr
    dsimp only at hr
    rw [api_info_trace] at hr
    split at hr
    · rw [hv2] at hr
      dsimp only at hr
      rcases after_check_post_url c srv fs message recipients filenames
          attachments_as_bytes vers [aboutRequest c] true hv2 r hr with h | h
      · exfalso
        rw [List.mem_singleton.mp h] at hm
        simp [aboutRequest] at hm
      · simpa using h.2
    · rcases after_check_post_url c srv fs message recipients filenames
          attachments_as_bytes vers [aboutRequest c] true hv2 r hr with h | h
      · exfalso
        rw [List.mem_singleton.mp h] at hm
        simp [aboutRequest] at hm
      · simpa using h.2
  · intro hv2 r hr hm
    unfold send_message at hr
    rw [hinfo] at hr
    dsimp only at hr
    rw [hu] at hr
    dsimp only at hr
    rw [api_info_trace] at hr
    split at hr
    · rw [hv2] at hr
      dsimp only at hr
      exfalso
      rw [List.mem_singleton.mp hr] at hm
      simp [aboutRequest] at hm
    · rcases after_check_post_url c srv fs message recipients filenames
          attachments_as_bytes vers [aboutRequest c] false hv2 r hr with h | h
      · exfalso
        rw [List.mem_singleton.mp h] at hm
        simp [aboutRequest] at hm
      · simpa using h.2

/-- C7 witness: the POST of a concrete v2 send targets `/v2/send`. -/
theorem send_message_endpoint_selection_witness :
    (sendRequest cEx (cEx.base_url ++ "/v2/send")
        (.dict [("message", .str "hi"), ("number", .str cEx.number),
          ("recipients", .list [.str "+4917611111111"]),
          ("base64_attachments", .list [.str (bytes_to_base64 [1])])])).url =
      cEx.base_url ++ "/v2/send" :=
  (send_message_endpoint_selection cEx srvV2 fsEx "hi" ["+4917611111111"]
      (some ["a.png"]) Option.none (.tuple [.list [.str "v1", .str "v2"], .int 1])
      (.list [.str "v1", .str "v2"]) (.int 1) rfl rfl).1 rfl
    (sendRequest cEx (cEx.base_url ++ "/v2/send")
      (.dict [("message", .str "hi"), ("number", .str cEx.number),
        ("recipients", .list [.str "+4917611111111"]),
        ("base64_attachments", .list [.str (bytes_to_base64 [1])])]))
    (by
      have h : (send_message cEx srvV2 fsEx "hi" ["+4917611111111"] (some ["a.png"])
          Option.none).trace =
          [aboutRequest cEx,
            sendRequest cEx (cEx.base_url ++ "/v2/send")
              (.dict [("message", .str "hi"), ("number", .str cEx.number),
                ("recipients", .list [.str "+4917611111111"]),
                ("base64_attachments", .list [.str (bytes_to_base64 [1])])])] := rfl
      rw [h]
      exact List.mem_cons_of_mem _ (List.mem_singleton.mpr rfl))
    rfl

/-! ## C10 -/

/-- With "v2" among the unpacked tags, `send_message` reduces to the
post-check phase whatever the filename count (the capability check passes). -/
theorem send_message_eq_after_check_v2 (c : SignalCliRestApi) (srv : Server)
    (fs : FileSystem) (message : String) (recipients : List String)
    (filenames : Option (List String)) (attachments_as_bytes : Option (List (List Nat)))
    (v vers bld : PyVal)
    (hinfo : (api_info c srv).result = .ok v)
    (hu : pyUnpack2 v = .ok (vers, bld))
    (hv2 : pyIn (.str "v2") vers = .ok true) :
    send_message c srv fs message recipients filenames attachments_as_bytes =
      send_message_after_check c srv fs message recipients filenames
        attachments_as_bytes vers [aboutRequest c] := by
  unfold send_message
  rw [hinfo]
  dsimp only
  rw [hu]
  dsimp only
  rw [api_info_trace]
  split
  · rw [hv2]
  · rfl

/-- With no more than one filename, the capability check is skipped and
`send_message` reduces to the post-check phase. -/
theorem send_message_eq_after_check_nomulti (c : SignalCliRestApi) (srv : Server)
    (fs : FileSystem) (message : String) (recipients : List String)
    (filenames : Option (List String)) (attachments_as_bytes : Option (List (List Nat)))
    (v vers bld : PyVal)
    (hinfo : (api_info c srv).result = .ok v)
    (hu : pyUnpack2 v = .ok (vers, bld))
    (hnm : (match filenames with
            | some fns => decide (fns.length > 1)
            | Option.none => false) = false) :
    send_message c srv fs message recipients filenames attachments_as_bytes =
      send_message_after_check c srv fs message recipients filenames
        attachments_as_bytes vers [aboutRequest c] := by
  unfold send_message
  rw [hinfo]
  dsimp only
  rw [hu]
  dsimp only
  rw [api_info_trace, hnm]
  simp only [Bool.false_eq_true, if_false]

/-- C10: on the v2 path the POSTed payload always contains the
`"base64_attachments"` key — bound to the empty list when no attachments of
either kind are supplied — whereas on the legacy path the payload omits the
`"base64_attachment"` key entirely when no single file-path attachment is
supplied. -/
theorem send_message_attachment_key_presence (c : SignalCliRestApi) (srv : Server)
    (fs : FileSystem) (message : String) (recipients : List String)
    (v vers bld : PyVal)
    (hinfo : (api_info c srv).result = .ok v)
    (hu : pyUnpack2 v = .ok (vers, bld)) :
    (pyIn (.str "v2") vers = .ok true →
      ∀ (filenames : Option (List String)) (bytes : Option (List (List Nat)))
        (contents : List (List Nat)),
        readAll fs (match filenames with | Option.none => [] | some fns => fns) =
          .ok contents →
        ∀ r ∈ (send_message c srv fs message recipients filenames bytes).trace,
          r.method = .post →
            dictLookup (r.body.getD .none) "base64_attachments" =
              some (.list (((match bytes with
                             | Option.none => []
                             | some l => l.map bytes_to_base64)
                ++ contents.map bytes_to_base64).map .str)))
    ∧ (pyIn (.str "v2") vers = .ok true →
      ∀ r ∈ (send_message c srv fs message recipients Option.none Option.none).trace,
        r.method = .post →
          dictLookup (r.body.getD .none) "base64_attachments" = some (.list []))
    ∧ (pyIn (.str "v2") vers = .ok false →
      ∀ bytes : Option (List (List Nat)),
        (∀ r ∈ (send_message c srv fs message recipients Option.none bytes).trace,
          dictLookup (r.body.getD .none) "base64_attachment" = Option.none)
        ∧ (∀ r ∈ (send_message c srv fs message recipients (some []) bytes).trace,
          dictLookup (r.body.getD .none) "base64_attachment" = Option.none)) := by
  refine ⟨?_, ?_, ?_⟩
  · intro hv2 filenames bytes contents hread r hr hm
    rw [send_message_eq_after_check_v2 c srv fs message recipients filenames bytes
      v vers bld hinfo hu hv2] at hr
    rw [after_check_v2 c srv fs message recipients filenames bytes vers
      [aboutRequest c] contents hv2 hread] at hr
    rw [send_post_trace] at hr
    rcases List.mem_append.mp hr with h | h
    · exfalso
      rw [List.mem_singleton.mp h] at hm
      simp [aboutRequest] at hm
    · rw [List.mem_singleton.mp h]
      rfl
  · intro hv2 r hr hm
    rw [send_message_eq_after_check_v2 c srv fs message recipients Option.none
      Option.none v vers bld hinfo hu hv2] at hr
    rw [after_check_v2 c srv fs message recipients Option.none Option.none vers
      [aboutRequest c] [] hv2 rfl] at hr
    rw [send_post_trace] at hr
    rcases List.mem_append.mp hr with h | h
    · exfalso
      rw [List.mem_singleton.mp h] at hm
      simp [aboutRequest] at hm
    · rw [List.mem_singleton.mp h]
      rfl
  · intro hv2 bytes
    constructor
    · intro r hr
      rw [send_message_eq_after_check_nomulti c srv fs message recipients Option.none
        bytes v vers bld hinfo hu rfl] at hr
      rw [after_check_legacy_none c srv fs message recipients bytes vers
        [aboutRequest c] hv2] at hr
      rw [send_post_trace] at hr
      rcases List.mem_append.mp hr with h | h
      · rw [List.mem_singleton.mp h]
        rfl
      · rw [List.mem_singleton.mp h]
        rfl
    · intro r hr
      rw [send_message_eq_after_check_nomulti c srv fs message recipients (some [])
        bytes v vers bld hinfo hu rfl] at hr
      rw [after_check_legacy_nil c srv fs message recipients bytes vers
        [aboutRequest c] hv2] at hr
      rw [send_post_trace] at hr
      rcases List.mem_append.mp hr with h | h
      · rw [List.mem_singleton.mp h]
        rfl
      · rw [List.mem_singleton.mp h]
        rfl

/-- C10 witness: the empty `"base64_attachments"` list is present in the
payload of a concrete v2 send with no attachments. -/
theorem send_message_attachment_key_presence_witness :
    dictLookup ((sendRequest cEx (cEx.base_url ++ "/v2/send")
        (.dict [("message", .str "hi"), ("number", .str cEx.number),
          ("recipients", .list [.str "+4917611111111"]),
          ("base64_attachments", .list [])])).body.getD .none) "base64_attachments" =
      some (.list []) :=
  (send_message_attachment_key_presence cEx srvV2 fsEx "hi" ["+4917611111111"]
      (.tuple [.list [.str "v1", .str "v2"], .int 1]) (.list [.str "v1", .str "v2"])
      (.int 1) rfl rfl).2.1 rfl
    (sendRequest cEx (cEx.base_url ++ "/v2/send")
      (.dict [("message", .str "hi"), ("number", .str cEx.number),
        ("recipients", .list [.str "+4917611111111"]),
        ("base64_attachments", .list [])]))
    (by
      have h : (send_message cEx srvV2 fsEx "hi" ["+4917611111111"] Option.none
          Option.none).trace =
          [aboutRequest cEx,
            sendRequest cEx (cEx.base_url ++ "/v2/send")
              (.dict [("message", .str "hi"), ("number", .str cEx.number),
                ("recipients", .list [.str "+4917611111111"]),
                ("base64_attachments", .list [])])] := rfl
      rw [h]
      exact List.mem_cons_of_mem _ (List.mem_singleton.mpr rfl))
    rfl

/-! ## C8 -/

/-- C8: when the parsed info response is a JSON object without a `"mode"`
field, `mode` returns `"unknown"` without raising on the missing field; when
the object carries a `"mode"` field, `mode` returns that field's value. -/
theorem mode_field_handling (c : SignalCliRestApi) (srv : Server)
    (resp : HttpResponse) (kvs : List (String × PyVal))
    (hsrv : srv (aboutRequest c) = some resp)
    (hbody : resp.body = some (.dict kvs)) :
    (kvs.lookup "mode" = Option.none → (mode c srv).result = .ok (.str "unknown"))
    ∧ (∀ mv, kvs.lookup "mode" = some mv → (mode c srv).result = .ok mv) := by
  constructor
  · intro hnone
    unfold mode
    dsimp only
    rw [hsrv]
    dsimp only
    rw [hbody]
    unfold PyVal.getItem
    dsimp only
    rw [hnone]
  · intro mv hmv
    unfold mode
    dsimp only
    rw [hsrv]
    dsimp only
    rw [hbody]
    unfold PyVal.getItem
    dsimp only
    rw [hmv]

/-- A server whose info response is a JSON object without a "mode" field. -/
def srvModeless : Server :=
  fun _ => some ⟨200, some (.dict [("versions", .list [.str "v1"])]), []⟩

/-- C8 witness: the theorem applied to a concrete modeless info response. -/
theorem mode_field_handling_witness :
    (mode cEx srvModeless).result = .ok (.str "unknown") :=
  (mode_field_handling cEx srvModeless
    ⟨200, some (.dict [("versions", .list [.str "v1"])]), []⟩
    [("versions", .list [.str "v1"])] rfl rfl).1 rfl

/-! ## C5 -/

/-- Function `pyIn` can only fail with a `TypeError`. -/
theorem pyIn_error_typeError (x cont : PyVal) (e : LowError)
    (h : pyIn x cont = .error e) : e = .typeError := by
  unfold pyIn at h
  repeat' split at h
  all_goals
    first
    | (injection h with h2; exact h2.symm)
    | injection h

/-- A successful `api_info` value is the 404 list or a 2-tuple, so the
caller's unpacking cannot fail. -/
theorem api_info_ok_shape (c : SignalCliRestApi) (srv : Server) (v : PyVal)
    (h : (api_info c srv).result = .ok v) :
    v = .list [.str "v1", .int 1] ∨ ∃ a b, v = .tuple [a, b] := by
  unfold api_info at h
  dsimp only at h
  repeat' split at h
  all_goals try dsimp only at h
  all_goals
    first
    | (injection h with h2; subst h2; exact Or.inl rfl)
    | (injection h with h2; subst h2; exact Or.inr ⟨_, _, rfl⟩)
    | injection h

/-- Every error escaping `api_info` is the uniform error kind. -/
theorem api_info_error_isApiError (c : SignalCliRestApi) (srv : Server) (e : PyError)
    (h : (api_info c srv).result = .error e) : e.isApiError = true := by
  unfold api_info at h
  dsimp only at h
  repeat' split at h
  all_goals try dsimp only at h
  all_goals
    first
    | (injection h with h2; subst h2; rfl)
    | injection h

/-- Every error escaping `create_group` is the uniform error kind. -/
theorem create_group_error_isApiError (c : SignalCliRestApi) (srv : Server)
    (name : String) (members : List String) (e : PyError)
    (h : (create_group c srv name members).result = .error e) : e.isApiError = true := by
  unfold create_group at h
  dsimp only at h
  repeat' split at h
  all_goals try dsimp only at h
  all_goals
    first
    | (injection h with h2; subst h2; rfl)
    | (injection h with h2; subst h2; exact statusError_isApiError _ _ _)
    | injection h

/-- Every error escaping `list_groups` is the uniform error kind. -/
theorem list_groups_error_isApiError (c : SignalCliRestApi) (srv : Server) (e : PyError)
    (h : (list_groups c srv).result = .error e) : e.isApiError = true := by
  unfold list_groups at h
  dsimp only at h
  repeat' split at h
  all_goals try dsimp only at h
  all_goals
    first
    | (injection h with h2; subst h2; rfl)
    | (injection h with h2; subst h2; exact statusError_isApiError _ _ _)
    | injection h

/-- Every error escaping `receive` is the uniform error kind. -/
theorem receive_error_isApiError (c : SignalCliRestApi) (srv : Server) (e : PyError)
    (h : (receive c srv).result = .error e) : e.isApiError = true := by
  unfold receive at h
  dsimp only at h
  repeat' split at h
  all_goals try dsimp only at h
  all_goals
    first
    | (injection h with h2; subst h2; rfl)
    | (injection h with h2; subst h2; exact statusError_isApiError _ _ _)
    | injection h

/-- Every error escaping the PUT phase of `update_profile` is uniform. -/
theorem update_profile_put_error (c : SignalCliRestApi) (srv : Server) (data : PyVal)
    (e : PyError) (h : (update_profile_put c srv data).result = .error e) :
    e.isApiError = true := by
  unfold update_profile_put at h
  dsimp only at h
  repeat' split at h
  all_goals try dsimp only at h
  all_goals
    first
    | (injection h with h2; subst h2; rfl)
    | (injection h with h2; subst h2; exact statusError_isApiError _ _ _)
    | injection h

/-- Every error escaping `update_profile` is the uniform error kind. -/
theorem update_profile_error_isApiError (c : SignalCliRestApi) (srv : Server)
    (fs : FileSystem) (name : String) (filename : Option String) (e : PyError)
    (h : (update_profile c srv fs name filename).result = .error e) :
    e.isApiError = true := by
  unfold update_profile at h
  dsimp only at h
  repeat' split at h
  all_goals try dsimp only at h
  all_goals
    first
    | (injection h with h2; subst h2; rfl)
    | injection h
    | exact update_profile_put_error _ _ _ _ h

/-- Every error escaping `list_attachments` is the uniform error kind. -/
theorem list_attachments_error_isApiError (c : SignalCliRestApi) (srv : Server)
    (e : PyError) (h : (list_attachments c srv).result = .error e) :
    e.isApiError = true := by
  unfold list_attachments at h
  dsimp only at h
  repeat' split at h
  all_goals try dsimp only at h
  all_goals
    first
    | (injection h with h2; subst h2; rfl)
    | (injection h with h2; subst h2; exact statusError_isApiError _ _ _)
    | injection h

/-- Every error escaping `get_attachment` is the uniform error kind. -/
theorem get_attachment_error_isApiError (c : SignalCliRestApi) (srv : Server)
    (attachment_id : String) (e : PyError)
    (h : (get_attachment c srv attachment_id).result = .error e) :
    e.isApiError = true := by
  unfold get_attachment at h
  dsimp only at h
  repeat' split at h
  all_goals try dsimp only at h
  all_goals
    first
    | (injection h with h2; subst h2; rfl)
    | (injection h with h2; subst h2; exact statusError_isApiError _ _ _)
    | injection h

/-- Every error escaping `delete_attachment` is the uniform error kind. -/
theorem delete_attachment_error_isApiError (c : SignalCliRestApi) (srv : Server)
    (attachment_id : String) (e : PyError)
    (h : (delete_attachment c srv attachment_id).result = .error e) :
    e.isApiError = true := by
  unfold delete_attachment at h
  dsimp only at h
  repeat' split at h
  all_goals try dsimp only at h
  all_goals
    first
    | (injection h with h2; subst h2; rfl)
    | (injection h with h2; subst h2; exact statusError_isApiError _ _ _)
    | injection h

/-- Every error escaping the POST phase of `send_message` is uniform. -/
theorem send_post_error (c : SignalCliRestApi) (srv : Server) (url : String)
    (data : PyVal) (tr : List HttpRequest) (e : PyError)
    (h : (send_post c srv url data tr).result = .error e) : e.isApiError = true := by
  unfold send_post at h
  dsimp only at h
  repeat' split at h
  all_goals try dsimp only at h
  all_goals
    first
    | (injection h with h2; subst h2; rfl)
    | (injection h with h2; subst h2; exact statusError_isApiError _ _ _)
    | injection h

/-- Every error escaping the post-check phase of `send_message` is the
uniform error kind, except a raw `TypeError` from the line-229 version
membership test on a non-container versions value. -/
theorem after_check_error (c : SignalCliRestApi) (srv : Server) (fs : FileSystem)
    (message : String) (recipients : List String) (filenames : Option (List String))
    (attachments_as_bytes : Option (List (List Nat))) (vers : PyVal)
    (tr : List HttpRequest) (e : PyError)
    (h : (send_message_after_check c srv fs message recipients filenames
        attachments_as_bytes vers tr).result = .error e) :
    e.isApiError = true ∨ e = .raw .typeError := by
  unfold send_message_after_check at h
  cases hpy : pyIn (.str "v2") vers with
  | error e0 =>
    rw [hpy] at h
    dsimp only at h
    injection h with h2
    subst h2
    right
    rw [pyIn_error_typeError _ _ _ hpy]
  | ok hasV2 =>
    rw [hpy] at h
    dsimp only at h
    cases hasV2
    · dsimp only at h
      simp only [Bool.false_eq_true, if_false] at h
      repeat' split at h
      all_goals try dsimp only at h
      all_goals
        first
        | (injection h with h2; subst h2; exact Or.inl rfl)
        | (injection h with h2; subst h2; exact Or.inl (statusError_isApiError _ _ _))
        | injection h
        | exact Or.inl (send_post_error _ _ _ _ _ _ h)
    · dsimp only at h
      simp only [eq_self_iff_true, if_true] at h
      repeat' split at h
      all_goals try dsimp only at h
      all_goals
        first
        | (injection h with h2; subst h2; exact Or.inl rfl)
        | (injection h with h2; subst h2; exact Or.inl (statusError_isApiError _ _ _))
        | injection h
        | exact Or.inl (send_post_error _ _ _ _ _ _ h)

/-- A server that always fails at transport level. -/
def srvDown : Server := fun _ => Option.none

/-- C5 counterexample: `mode` has no exception handler, so a transport
failure escapes it as a raw exception, not as the uniform
`SignalCliRestApiError`. -/
theorem mode_leaks_raw_transport :
    (mode cEx srvDown).result = .error (.raw .transport)
    ∧ (PyError.raw .transport).isApiError = false := ⟨rfl, rfl⟩

/-- Errors escaping `send_message` are the uniform kind, apart from a raw
`TypeError` from the pre-handler version membership tests on a non-container
versions value. -/
theorem send_message_error_kind (c : SignalCliRestApi) (srv : Server)
    (fs : FileSystem) (message : String) (recipients : List String)
    (filenames : Option (List String)) (attachments_as_bytes : Option (List (List Nat)))
    (e : PyError)
    (h : (send_message c srv fs message recipients filenames
      attachments_as_bytes).result = .error e) :
    e.isApiError = true ∨ e = .raw .typeError := by
  unfold send_message at h
  cases hres : (api_info c srv).result with
  | error e1 =>
    rw [hres] at h
    dsimp only at h
    injection h with h2
    subst h2
    exact Or.inl (api_info_error_isApiError c srv e1 hres)
  | ok ret =>
    rw [hres] at h
    dsimp only at h
    rcases api_info_ok_shape c srv ret hres with hsh | ⟨a, b, hsh⟩
    · subst hsh
      rw [show pyUnpack2 (PyVal.list [.str "v1", .int 1]) = .ok (.str "v1", .int 1)
        from rfl] at h
      dsimp only at h
      split at h
      · cases hpy : pyIn (.str "v2") (.str "v1") with
        | error e0 =>
          rw [hpy] at h
          dsimp only at h
          injection h with h2
          subst h2
          right
          rw [pyIn_error_typeError _ _ _ hpy]
        | ok hv =>
          rw [hpy] at h
          try dsimp only at h
          cases hv
          · try dsimp only at h
            injection h with h2
            subst h2
            exact Or.inl rfl
          · try dsimp only at h
            exact after_check_error _ _ _ _ _ _ _ _ _ _ h
      · exact after_check_error _ _ _ _ _ _ _ _ _ _ h
    · subst hsh
      rw [show pyUnpack2 (PyVal.tuple [a, b]) = .ok (a, b) from rfl] at h
      dsimp only at h
      split at h
      · cases hpy : pyIn (.str "v2") a with
        | error e0 =>
          rw [hpy] at h
          dsimp only at h
          injection h with h2
          subst h2
          right
          rw [pyIn_error_typeError _ _ _ hpy]
        | ok hv =>
          rw [hpy] at h
          try dsimp only at h
          cases hv
          · try dsimp only at h
            injection h with h2
            subst h2
            exact Or.inl rfl
          · try dsimp only at h
            exact after_check_error _ _ _ _ _ _ _ _ _ _ h
      · exact after_check_error _ _ _ _ _ _ _ _ _ _ h

/-- C5 (amended): every public operation except `mode` catches every internal
failure (transport, parse, key-lookup, file I/O) and re-raises it as the
single uniform error kind `SignalCliRestApiError`, with the original failure
attached as the cause: a transport failure is wrapped with cause `transport`
on every operation, body-parse failures with cause `parse`, the `versions`
and `id` key lookups with the `KeyError` as cause, and the avatar and
attachment file reads with the file failure as cause; the errors raised
fresh (server-supplied error-field messages, the generic unknown-error
messages, and the capability error) carry no cause. `mode` performs no
exception handling and lets raw transport and parse failures escape. (The
only other possible raw escape is a `TypeError` from `send_message`'s version
membership tests, which run before its handler and can only fail when the
server's versions value is not a container.) -/
theorem ops_uniform_error_kind :
    (∀ (c : SignalCliRestApi) (srv : Server) (e : PyError),
      (api_info c srv).result = .error e → e.isApiError = true)
    ∧ (∀ (c : SignalCliRestApi) (srv : Server) (name : String)
        (members : List String) (e : PyError),
      (create_group c srv name members).result = .error e → e.isApiError = true)
    ∧ (∀ (c : SignalCliRestApi) (srv : Server) (e : PyError),
      (list_groups c srv).result = .error e → e.isApiError = true)
    ∧ (∀ (c : SignalCliRestApi) (srv : Server) (e : PyError),
      (receive c srv).result = .error e → e.isApiError = true)
    ∧ (∀ (c : SignalCliRestApi) (srv : Server) (fs : FileSystem) (name : String)
        (filename : Option String) (e : PyError),
      (update_profile c srv fs name filename).result = .error e → e.isApiError = true)
    ∧ (∀ (c : SignalCliRestApi) (srv : Server) (e : PyError),
      (list_attachments c srv).result = .error e → e.isApiError = true)
    ∧ (∀ (c : SignalCliRestApi) (srv : Server) (attachment_id : String) (e : PyError),
      (get_attachment c srv attachment_id).result = .error e → e.isApiError = true)
    ∧ (∀ (c : SignalCliRestApi) (srv : Server) (attachment_id : String) (e : PyError),
      (delete_attachment c srv attachment_id).result = .error e → e.isApiError = true)
    ∧ (∀ (c : SignalCliRestApi) (srv : Server) (fs : FileSystem) (message : String)
        (recipients : List String) (filenames : Option (List String))
        (attachments_as_bytes : Option (List (List Nat))) (e : PyError),
      (send_message c srv fs message recipients filenames attachments_as_bytes).result =
        .error e → e.isApiError = true ∨ e = .raw .typeError)    ∧ (∀ (c : SignalCliRestApi) (srv : Server),
      srv (aboutRequest c) = Option.none →
      (api_info c srv).result =
        .error (.apiError (.str "Couldn't determine REST API version")
          (some .transport)))
    ∧ (∀ (c : SignalCliRestApi) (srv : Server) (resp : HttpResponse),
      srv (aboutRequest c) = some resp → resp.status_code ≠ 404 →
      resp.body = Option.none →
      (api_info c srv).result =
        .error (.apiError (.str "Couldn't determine REST API version") (some .parse)))
    ∧ (∀ (c : SignalCliRestApi) (srv : Server) (resp : HttpResponse)
        (kvs : List (String × PyVal)),
      srv (aboutRequest c) = some resp → resp.status_code ≠ 404 →
      resp.body = some (.dict kvs) → kvs.lookup "versions" = Option.none →
      (api_info c srv).result =
        .error (.apiError (.str "Couldn't determine REST API version")
          (some (.keyError "versions"))))
    ∧ (∀ (c : SignalCliRestApi) (srv : Server) (name : String) (members : List String),
      srv (createGroupRequest c name members) = Option.none →
      (create_group c srv name members).result =
        .error (.apiError (.str "Couldn't create Signal Messenger group: ")
          (some .transport)))
    ∧ (∀ (c : SignalCliRestApi) (srv : Server) (name : String) (members : List String)
        (resp : HttpResponse),
      srv (createGroupRequest c name members) = some resp →
      resp.status_code ≠ 201 → resp.status_code ≠ 200 → resp.body = Option.none →
      (create_group c srv name members).result =
        .error (.apiError (.str "Couldn't create Signal Messenger group: ")
          (some .parse)))
    ∧ (∀ (c : SignalCliRestApi) (srv : Server) (name : String) (members : List String)
        (resp : HttpResponse),
      srv (createGroupRequest c name members) = some resp →
      resp.status_code = 200 → resp.body = Option.none →
      (create_group c srv name members).result =
        .error (.apiError (.str "Couldn't create Signal Messenger group: ")
          (some .parse)))
    ∧ (∀ (c : SignalCliRestApi) (srv : Server) (name : String) (members : List String)
        (resp : HttpResponse) (kvs : List (String × PyVal)),
      srv (createGroupRequest c name members) = some resp →
      resp.status_code = 200 → resp.body = some (.dict kvs) →
      kvs.lookup "id" = Option.none →
      (create_group c srv name members).result =
        .error (.apiError (.str "Couldn't create Signal Messenger group: ")
          (some (.keyError "id"))))
    ∧ (∀ (c : SignalCliRestApi) (srv : Server),
      srv (groupsRequest c) = Option.none →
      (list_groups c srv).result =
        .error (.apiError (.str "Couldn't list Signal Messenger groups: ")
          (some .transport)))
    ∧ (∀ (c : SignalCliRestApi) (srv : Server) (resp : HttpResponse),
      srv (groupsRequest c) = some resp → resp.body = Option.none →
      (list_groups c srv).result =
        .error (.apiError (.str "Couldn't list Signal Messenger groups: ")
          (some .parse)))
    ∧ (∀ (c : SignalCliRestApi) (srv : Server),
      srv (receiveRequest c) = Option.none →
      (receive c srv).result =
        .error (.apiError (.str "Couldn't receive Signal Messenger data: ")
          (some .transport)))
    ∧ (∀ (c : SignalCliRestApi) (srv : Server) (resp : HttpResponse),
      srv (receiveRequest c) = some resp → resp.body = Option.none →
      (receive c srv).result =
        .error (.apiError (.str "Couldn't receive Signal Messenger data: ")
          (some .parse)))
    ∧ (∀ (c : SignalCliRestApi) (srv : Server) (fs : FileSystem) (name : String),
      srv (profileRequest c (.dict [("name", .str name)])) = Option.none →
      (update_profile c srv fs name Option.none).result =
        .error (.apiError (.str "Couldn't update profile: ") (some .transport)))
    ∧ (∀ (c : SignalCliRestApi) (srv : Server) (fs : FileSystem) (name f : String),
      fs f = Option.none →
      (update_profile c srv fs name (some f)).result =
        .error (.apiError (.str "Couldn't update profile: ") (some (.fileErr f))))
    ∧ (∀ (c : SignalCliRestApi) (srv : Server) (fs : FileSystem) (name : String)
        (resp : HttpResponse),
      srv (profileRequest c (.dict [("name", .str name)])) = some resp →
      resp.status_code ≠ 204 → resp.body = Option.none →
      (update_profile c srv fs name Option.none).result =
        .error (.apiError (.str "Couldn't update profile: ") (some .parse)))
    ∧ (∀ (c : SignalCliRestApi) (srv : Server),
      srv (attachmentsRequest c) = Option.none →
      (list_attachments c srv).result =
        .error (.apiError (.str "Couldn't list attachments: ") (some .transport)))
    ∧ (∀ (c : SignalCliRestApi) (srv : Server) (resp : HttpResponse),
      srv (attachmentsRequest c) = some resp → resp.status_code ≠ 200 →
      resp.body = Option.none →
      (list_attachments c srv).result =
        .error (.apiError (.str "Couldn't list attachments: ") (some .parse)))
    ∧ (∀ (c : SignalCliRestApi) (srv : Server) (resp : HttpResponse),
      srv (attachmentsRequest c) = some resp → resp.status_code = 200 →
      resp.body = Option.none →
      (list_attachments c srv).result =
        .error (.apiError (.str "Couldn't list attachments: ") (some .parse)))
    ∧ (∀ (c : SignalCliRestApi) (srv : Server) (attachment_id : String),
      srv (attachmentRequest c attachment_id) = Option.none →
      (get_attachment c srv attachment_id).result =
        .error (.apiError (.str "Couldn't get attachment: ") (some .transport)))
    ∧ (∀ (c : SignalCliRestApi) (srv : Server) (attachment_id : String)
        (resp : HttpResponse),
      srv (attachmentRequest c attachment_id) = some resp → resp.status_code ≠ 200 →
      resp.body = Option.none →
      (get_attachment c srv attachment_id).result =
        .error (.apiError (.str "Couldn't get attachment: ") (some .parse)))
    ∧ (∀ (c : SignalCliRestApi) (srv : Server) (attachment_id : String),
      srv (deleteAttachmentRequest c attachment_id) = Option.none →
      (delete_attachment c srv attachment_id).result =
        .error (.apiError (.str "Couldn't delete attachment: ") (some .transport)))
    ∧ (∀ (c : SignalCliRestApi) (srv : Server) (attachment_id : String)
        (resp : HttpResponse),
      srv (deleteAttachmentRequest c attachment_id) = some resp →
      resp.status_code ≠ 204 → resp.body = Option.none →
      (delete_attachment c srv attachment_id).result =
        .error (.apiError (.str "Couldn't delete attachment: ") (some .parse)))
    ∧ (∀ (c : SignalCliRestApi) (srv : Server) (fs : FileSystem) (message : String)
        (recipients : List String) (fns : List String)
        (attachments_as_bytes : Option (List (List Nat))) (v vers bld : PyVal)
        (er : LowError),
      (api_info c srv).result = .ok v → pyUnpack2 v = .ok (vers, bld) →
      pyIn (.str "v2") vers = .ok true → readAll fs fns = .error er →
      (send_message c srv fs message recipients (some fns)
        attachments_as_bytes).result =
        .error (.apiError (.str "Couldn't send signal message") (some er)))
    ∧ (∀ (c : SignalCliRestApi) (srv : Server) (fs : FileSystem) (message : String)
        (recipients : List String) (f : String)
        (attachments_as_bytes : Option (List (List Nat))) (v vers bld : PyVal),
      (api_info c srv).result = .ok v → pyUnpack2 v = .ok (vers, bld) →
      pyIn (.str "v2") vers = .ok false → fs f = Option.none →
      (send_message c srv fs message recipients (some [f])
        attachments_as_bytes).result =
        .error (.apiError (.str "Couldn't send signal message")
          (some (.fileErr f))))
    ∧ (∀ (c : SignalCliRestApi) (srv : Server) (fs : FileSystem) (message : String)
        (recipients : List String)
        (attachments_as_bytes : Option (List (List Nat))) (v vers bld : PyVal),
      (api_info c srv).result = .ok v → pyUnpack2 v = .ok (vers, bld) →
      pyIn (.str "v2") vers = .ok false →
      srv (sendRequest c (c.base_url ++ "/v1/send")
        (.dict [("message", .str message), ("number", .str c.number),
          ("recipients", .list (recipients.map .str))])) = Option.none →
      (send_message c srv fs message recipients Option.none
        attachments_as_bytes).result =
        .error (.apiError (.str "Couldn't send signal message") (some .transport)))
    ∧ (∀ (c : SignalCliRestApi) (srv : Server) (fs : FileSystem) (message : String)
        (recipients : List String)
        (attachments_as_bytes : Option (List (List Nat))) (v vers bld : PyVal)
        (resp : HttpResponse),
      (api_info c srv).result = .ok v → pyUnpack2 v = .ok (vers, bld) →
      pyIn (.str "v2") vers = .ok false →
      srv (sendRequest c (c.base_url ++ "/v1/send")
        (.dict [("message", .str message), ("number", .str c.number),
          ("recipients", .list (recipients.map .str))])) = some resp →
      resp.status_code ≠ 201 → resp.body = Option.none →
      (send_message c srv fs message recipients Option.none
        attachments_as_bytes).result =
        .error (.apiError (.str "Couldn't send signal message") (some .parse))) := by
  refine ⟨api_info_error_isApiError, create_group_error_isApiError,
    list_groups_error_isApiError, receive_error_isApiError,
    update_profile_error_isApiError, list_attachments_error_isApiError,
    get_attachment_error_isApiError, delete_attachment_error_isApiError,
    send_message_error_kind, ?_, ?_, ?_, ?_, ?_, ?_, ?_, ?_, ?_, ?_, ?_, ?_,
    ?_, ?_, ?_, ?_, ?_, ?_, ?_, ?_, ?_, ?_, ?_, ?_, ?_⟩
  · intro c srv h
    unfold api_info
    dsimp only
    rw [h]
    try rfl
  · intro c srv resp hsrv h404 hbody
    unfold api_info
    dsimp only
    rw [hsrv]
    dsimp only
    rw [beq_eq_false_iff_ne.mpr h404]
    simp only [Bool.false_eq_true, if_false]
    rw [hbody]
    try rfl
  · intro c srv resp kvs hsrv h404 hbody hkey
    unfold api_info
    dsimp only
    rw [hsrv]
    dsimp only
    rw [beq_eq_false_iff_ne.mpr h404]
    simp only [Bool.false_eq_true, if_false]
    rw [hbody]
    dsimp only
    unfold PyVal.getItem
    dsimp only
    rw [hkey]
    try rfl
  · intro c srv name members h
    unfold create_group
    dsimp only
    rw [h]
    try rfl
  · intro c srv name members resp hsrv h201 h200 hbody
    have hstat : (resp.status_code != 201 && resp.status_code != 200) = true := by
      simp [bne_iff_ne, h201, h200]
    unfold create_group
    dsimp only
    rw [hsrv]
    dsimp only
    rw [hstat]
    simp only [eq_self_iff_true, if_true]
    rw [hbody]
    try rfl
  · intro c srv name members resp hsrv h200 hbody
    have hstat : (resp.status_code != 201 && resp.status_code != 200) = false := by
      simp [h200]
    unfold create_group
    dsimp only
    rw [hsrv]
    dsimp only
    rw [hstat]
    simp only [Bool.false_eq_true, if_false]
    rw [hbody]
    try rfl
  · intro c srv name members resp kvs hsrv h200 hbody hid
    have hstat : (resp.status_code != 201 && resp.status_code != 200) = false := by
      simp [h200]
    unfold create_group
    dsimp only
    rw [hsrv]
    dsimp only
    rw [hstat]
    simp only [Bool.false_eq_true, if_false]
    rw [hbody]
    dsimp only
    unfold PyVal.getItem
    dsimp only
    rw [hid]
    try rfl
  · intro c srv h
    unfold list_groups
    dsimp only
    rw [h]
    try rfl
  · intro c srv resp hsrv hbody
    unfold list_groups
    dsimp only
    rw [hsrv]
    dsimp only
    rw [hbody]
    try rfl
  · intro c srv h
    unfold receive
    dsimp only
    rw [h]
    try rfl
  · intro c srv resp hsrv hbody
    unfold receive
    dsimp only
    rw [hsrv]
    dsimp only
    rw [hbody]
    try rfl
  · intro c srv fs name h
    unfold update_profile update_profile_put
    dsimp only
    rw [h]
    try rfl
  · intro c srv fs name f hf
    unfold update_profile
    dsimp only
    rw [hf]
    try rfl
  · intro c srv fs name resp hsrv h204 hbody
    have hstat : (resp.status_code != 204) = true := by simp [bne_iff_ne, h204]
    unfold update_profile update_profile_put
    dsimp only
    rw [hsrv]
    dsimp only
    rw [hstat]
    simp only [eq_self_iff_true, if_true]
    rw [hbody]
    try rfl
  · intro c srv h
    unfold list_attachments
    dsimp only
    rw [h]
    try rfl
  · intro c srv resp hsrv h200 hbody
    have hstat : (resp.status_code != 200) = true := by simp [bne_iff_ne, h200]
    unfold list_attachments
    dsimp only
    rw [hsrv]
    dsimp only
    rw [hstat]
    simp only [eq_self_iff_true, if_true]
    rw [hbody]
    try rfl
  · intro c srv resp hsrv h200 hbody
    have hstat : (resp.status_code != 200) = false := by simp [h200]
    unfold list_attachments
    dsimp only
    rw [hsrv]
    dsimp only
    rw [hstat]
    simp only [Bool.false_eq_true, if_false]
    rw [hbody]
    try rfl
  · intro c srv attachment_id h
    unfold get_attachment
    dsimp only
    rw [h]
    try rfl
  · intro c srv attachment_id resp hsrv h200 hbody
    have hstat : (resp.status_code != 200) = true := by simp [bne_iff_ne, h200]
    unfold get_attachment
    dsimp only
    rw [hsrv]
    dsimp only
    rw [hstat]
    simp only [eq_self_iff_true, if_true]
    rw [hbody]
    try rfl
  · intro c srv attachment_id h
    unfold delete_attachment
    dsimp only
    rw [h]
    try rfl
  · intro c srv attachment_id resp hsrv h204 hbody
    have hstat : (resp.status_code != 204) = true := by simp [bne_iff_ne, h204]
    unfold delete_attachment
    dsimp only
    rw [hsrv]
    dsimp only
    rw [hstat]
    simp only [eq_self_iff_true, if_true]
    rw [hbody]
    try rfl
  · intro c srv fs message recipients fns attachments_as_bytes v vers bld er
      hinfo hu hv2 hread
    rw [send_message_eq_after_check_v2 c srv fs message recipients (some fns)
      attachments_as_bytes v vers bld hinfo hu hv2]
    unfold send_message_after_check
    rw [hv2]
    dsimp only
    rw [hread]
    try rfl
  · intro c srv fs message recipients f attachments_as_bytes v vers bld
      hinfo hu hv hf
    rw [send_message_eq_after_check_nomulti c srv fs message recipients (some [f])
      attachments_as_bytes v vers bld hinfo hu rfl]
    unfold send_message_after_check
    rw [hv]
    dsimp only
    rw [hf]
    try rfl
  · intro c srv fs message recipients attachments_as_bytes v vers bld
      hinfo hu hv hpost
    rw [send_message_eq_after_check_nomulti c srv fs message recipients Option.none
      attachments_as_bytes v vers bld hinfo hu rfl]
    rw [after_check_legacy_none c srv fs message recipients attachments_as_bytes vers
      [aboutRequest c] hv]
    unfold send_post
    dsimp only
    rw [hpost]
    try rfl
  · intro c srv fs message recipients attachments_as_bytes v vers bld resp
      hinfo hu hv hpost h201 hbody
    have hstat : (resp.status_code != 201) = true := by simp [bne_iff_ne, h201]
    rw [send_message_eq_after_check_nomulti c srv fs message recipients Option.none
      attachments_as_bytes v vers bld hinfo hu rfl]
    rw [after_check_legacy_none c srv fs message recipients attachments_as_bytes vers
      [aboutRequest c] hv]
    unfold send_post
    dsimp only
    rw [hpost]
    dsimp only
    rw [hstat]
    simp only [eq_self_iff_true, if_true]
    rw [hbody]
    try rfl

/-- C5 witness: the amended theorem applied to `create_group` against a
transport-failing server. -/
theorem ops_uniform_error_kind_witness :
    PyError.isApiError (.apiError (.str "Couldn't create Signal Messenger group: ")
      (some .transport)) = true :=
  ops_uniform_error_kind.2.1 cEx srvDown "grp" []
    (.apiError (.str "Couldn't create Signal Messenger group: ") (some .transport)) rfl

/-! ## C6 -/

/-- A server answering 500 with a parseable body carrying a versions list. -/
def srv500 : Server :=
  fun _ => some ⟨500, some (.dict [("versions", .list [.str "v1"])]), []⟩

/-- C6 counterexample: 500 is not a success status for the info endpoint
(success is 200, with 404 as the legacy default), yet `api_info` returns
successfully and raises no error at all: it never checks for non-success
statuses, so the claim fails for this operation. -/
theorem api_info_ignores_bad_status :
    (api_info cEx srv500).result = .ok (.tuple [.list [.str "v1"], .int 1])
    ∧ (500 : Nat) ≠ 200 ∧ (500 : Nat) ≠ 404 :=
  ⟨rfl, by decide, by decide⟩

/-- Function `api_info` against a 404 info endpoint returns the legacy default. -/
theorem api_info_404_result (c : SignalCliRestApi) (srv : Server) (resp : HttpResponse)
    (h : srv (aboutRequest c) = some resp) (h404 : resp.status_code = 404) :
    (api_info c srv).result = .ok (.list [.str "v1", .int 1]) := by
  unfold api_info
  dsimp only
  rw [h]
  simp [h404]

/-- C6 (amended): for each status-checking operation and any non-success
response to its main request: the uniform error is raised; a JSON-object body
with a string `"error"` field yields exactly that string as the message (no
cause); a JSON-object body without one yields the generic
"Unknown error while <operation>" message; an unparseable body yields the
operation's "Couldn't <operation>" message with the parse failure as cause.
(`api_info` and `mode` perform no status check and are exempt.) -/
theorem status_error_extraction :
    (∀ (c : SignalCliRestApi) (srv : Server) (name : String) (members : List String)
        (resp : HttpResponse),
      srv (createGroupRequest c name members) = some resp →
      resp.status_code ≠ 201 → resp.status_code ≠ 200 →
      ((∀ kvs s, resp.body = some (.dict kvs) → kvs.lookup "error" = some (.str s) →
          (create_group c srv name members).result =
            .error (.apiError (.str s) Option.none))
       ∧ (∀ kvs, resp.body = some (.dict kvs) → kvs.lookup "error" = Option.none →
          (create_group c srv name members).result =
            .error (.apiError
              (.str "Unknown error while creating Signal Messenger group") Option.none))
       ∧ (resp.body = Option.none →
          (create_group c srv name members).result =
            .error (.apiError (.str "Couldn't create Signal Messenger group: ")
              (some .parse)))))
    ∧ (∀ (c : SignalCliRestApi) (srv : Server) (resp : HttpResponse),
      srv (groupsRequest c) = some resp → resp.status_code ≠ 200 →
      ((∀ kvs s, resp.body = some (.dict kvs) → kvs.lookup "error" = some (.str s) →
          (list_groups c srv).result = .error (.apiError (.str s) Option.none))
       ∧ (∀ kvs, resp.body = some (.dict kvs) → kvs.lookup "error" = Option.none →
          (list_groups c srv).result =
            .error (.apiError
              (.str "Unknown error while listing Signal Messenger groups") Option.none))
       ∧ (resp.body = Option.none →
          (list_groups c srv).result =
            .error (.apiError (.str "Couldn't list Signal Messenger groups: ")
              (some .parse)))))
    ∧ (∀ (c : SignalCliRestApi) (srv : Server) (resp : HttpResponse),
      srv (receiveRequest c) = some resp → resp.status_code ≠ 200 →
      ((∀ kvs s, resp.body = some (.dict kvs) → kvs.lookup "error" = some (.str s) →
          (receive c srv).result = .error (.apiError (.str s) Option.none))
       ∧ (∀ kvs, resp.body = some (.dict kvs) → kvs.lookup "error" = Option.none →
          (receive c srv).result =
            .error (.apiError
              (.str "Unknown error while receiving Signal Messenger data") Option.none))
       ∧ (resp.body = Option.none →
          (receive c srv).result =
            .error (.apiError (.str "Couldn't receive Signal Messenger data: ")
              (some .parse)))))
    ∧ (∀ (c : SignalCliRestApi) (srv : Server) (fs : FileSystem) (name : String)
        (filename : Option String) (data : PyVal) (resp : HttpResponse),
      ((filename = Option.none ∧ data = .dict [("name", .str name)]) ∨
        (∃ f content, filename = some f ∧ fs f = some content ∧
          data = dictSet (.dict [("name", .str name)]) "base64_avatar"
            (.str (bytes_to_base64 content)))) →
      srv (profileRequest c data) = some resp →
      resp.status_code ≠ 204 →
      ((∀ kvs s, resp.body = some (.dict kvs) → kvs.lookup "error" = some (.str s) →
          (update_profile c srv fs name filename).result =
            .error (.apiError (.str s) Option.none))
       ∧ (∀ kvs, resp.body = some (.dict kvs) → kvs.lookup "error" = Option.none →
          (update_profile c srv fs name filename).result =
            .error (.apiError (.str "Unknown error while updating profile") Option.none))
       ∧ (resp.body = Option.none →
          (update_profile c srv fs name filename).result =
            .error (.apiError (.str "Couldn't update profile: ") (some .parse)))))
    ∧ (∀ (c : SignalCliRestApi) (srv : Server) (resp : HttpResponse),
      srv (attachmentsRequest c) = some resp → resp.status_code ≠ 200 →
      ((∀ kvs s, resp.body = some (.dict kvs) → kvs.lookup "error" = some (.str s) →
          (list_attachments c srv).result = .error (.apiError (.str s) Option.none))
       ∧ (∀ kvs, resp.body = some (.dict kvs) → kvs.lookup "error" = Option.none →
          (list_attachments c srv).result =
            .error (.apiError (.str "Unknown error while listing attachments")
              Option.none))
       ∧ (resp.body = Option.none →
          (list_attachments c srv).result =
            .error (.apiError (.str "Couldn't list attachments: ") (some .parse)))))
    ∧ (∀ (c : SignalCliRestApi) (srv : Server) (attachment_id : String)
        (resp : HttpResponse),
      srv (attachmentRequest c attachment_id) = some resp → resp.status_code ≠ 200 →
      ((∀ kvs s, resp.body = some (.dict kvs) → kvs.lookup "error" = some (.str s) →
          (get_attachment c srv attachment_id).result =
            .error (.apiError (.str s) Option.none))
       ∧ (∀ kvs, resp.body = some (.dict kvs) → kvs.lookup "error" = Option.none →
          (get_attachment c srv attachment_id).result =
            .error (.apiError (.str "Unknown error while getting attachment")
              Option.none))
       ∧ (resp.body = Option.none →
          (get_attachment c srv attachment_id).result =
            .error (.apiError (.str "Couldn't get attachment: ") (some .parse)))))
    ∧ (∀ (c : SignalCliRestApi) (srv : Server) (attachment_id : String)
        (resp : HttpResponse),
      srv (deleteAttachmentRequest c attachment_id) = some resp →
      resp.status_code ≠ 204 →
      ((∀ kvs s, resp.body = some (.dict kvs) → kvs.lookup "error" = some (.str s) →
          (delete_attachment c srv attachment_id).result =
            .error (.apiError (.str s) Option.none))
       ∧ (∀ kvs, resp.body = some (.dict kvs) → kvs.lookup "error" = Option.none →
          (delete_attachment c srv attachment_id).result =
            .error (.apiError (.str "Unknown error while deleting attachment")
              Option.none))
       ∧ (resp.body = Option.none →
          (delete_attachment c srv attachment_id).result =
            .error (.apiError (.str "Couldn't delete attachment: ") (some .parse)))))
    ∧ (∀ (c : SignalCliRestApi) (srv : Server) (fs : FileSystem) (message : String)
        (recipients : List String) (filenames : Option (List String))
        (attachments_as_bytes : Option (List (List Nat))) (v vers bld : PyVal)
        (hasV2 : Bool) (resp : HttpResponse),
      (api_info c srv).result = .ok v →
      pyUnpack2 v = .ok (vers, bld) →
      pyIn (.str "v2") vers = .ok hasV2 →
      (hasV2 = false →
        (match filenames with
         | some fns => decide (fns.length > 1)
         | Option.none => false) = false) →
      (hasV2 = true →
        ∃ contents,
          readAll fs (match filenames with | Option.none => [] | some fns => fns) =
            .ok contents) →
      (hasV2 = false →
        (match filenames with
         | some [f] => (fs f).isSome = true
         | _ => True)) →
      (∀ r, r.method = .post → srv r = some resp) →
      resp.status_code ≠ 201 →
      ((∀ kvs s, resp.body = some (.dict kvs) → kvs.lookup "error" = some (.str s) →
          (send_message c srv fs message recipients filenames
            attachments_as_bytes).result = .error (.apiError (.str s) Option.none))
       ∧ (∀ kvs, resp.body = some (.dict kvs) → kvs.lookup "error" = Option.none →
          (send_message c srv fs message recipients filenames
            attachments_as_bytes).result =
            .error (.apiError (.str "Unknown error while sending signal message")
              Option.none))
       ∧ (resp.body = Option.none →
          (send_message c srv fs message recipients filenames
            attachments_as_bytes).result =
            .error (.apiError (.str "Couldn't send signal message") (some .parse))))) := by
  refine ⟨?_, ?_, ?_, ?_, ?_, ?_, ?_, ?_⟩
  · intro c srv name members resp hsrv h201 h200
    have hstat : (resp.status_code != 201 && resp.status_code != 200) = true := by
      simp [bne_iff_ne, h201, h200]
    refine ⟨?_, ?_, ?_⟩
    · intro kvs s hbody herr
      unfold create_group
      dsimp only
      rw [hsrv]
      dsimp only
      rw [hstat]
      simp only [eq_self_iff_true, if_true]
      rw [hbody, statusError_of_error_field _ _ kvs s herr]
    · intro kvs hbody herr
      unfold create_group
      dsimp only
      rw [hsrv]
      dsimp only
      rw [hstat]
      simp only [eq_self_iff_true, if_true]
      rw [hbody, statusError_of_no_error_field _ _ kvs herr]
    · intro hbody
      unfold create_group
      dsimp only
      rw [hsrv]
      dsimp only
      rw [hstat]
      simp only [eq_self_iff_true, if_true]
      rw [hbody]
      rfl
  · intro c srv resp hsrv h200
    have hstat : (resp.status_code != 200) = true := by simp [bne_iff_ne, h200]
    refine ⟨?_, ?_, ?_⟩
    · intro kvs s hbody herr
      unfold list_groups
      dsimp only
      rw [hsrv]
      dsimp only
      rw [hbody]
      dsimp only
      rw [hstat]
      simp only [eq_self_iff_true, if_true]
      rw [statusError_of_error_field _ _ kvs s herr]
    · intro kvs hbody herr
      unfold list_groups
      dsimp only
      rw [hsrv]
      dsimp only
      rw [hbody]
      dsimp only
      rw [hstat]
      simp only [eq_self_iff_true, if_true]
      rw [statusError_of_no_error_field _ _ kvs herr]
    · intro hbody
      unfold list_groups
      dsimp only
      rw [hsrv]
      dsimp only
      rw [hbody]
  · intro c srv resp hsrv h200
    have hstat : (resp.status_code != 200) = true := by simp [bne_iff_ne, h200]
    refine ⟨?_, ?_, ?_⟩
    · intro kvs s hbody herr
      unfold receive
      dsimp only
      rw [hsrv]
      dsimp only
      rw [hbody]
      dsimp only
      rw [hstat]
      simp only [eq_self_iff_true, if_true]
      rw [statusError_of_error_field _ _ kvs s herr]
    · intro kvs hbody herr
      unfold receive
      dsimp only
      rw [hsrv]
      dsimp only
      rw [hbody]
      dsimp only
      rw [hstat]
      simp only [eq_self_iff_true, if_true]
      rw [statusError_of_no_error_field _ _ kvs herr]
    · intro hbody
      unfold receive
      dsimp only
      rw [hsrv]
      dsimp only
      rw [hbody]
  · intro c srv fs name filename data resp hfile hsrv h204
    have hstat : (resp.status_code != 204) = true := by simp [bne_iff_ne, h204]
    have hred : update_profile c srv fs name filename = update_profile_put c srv data := by
      rcases hfile with ⟨hfn, hdata⟩ | ⟨f, content, hfn, hf, hdata⟩
      · subst hfn
        subst hdata
        rfl
      · subst hfn
        subst hdata
        unfold update_profile
        dsimp only
        rw [hf]
    refine ⟨?_, ?_, ?_⟩
    · intro kvs s hbody herr
      rw [hred]
      unfold update_profile_put
      dsimp only
      rw [hsrv]
      dsimp only
      rw [hstat]
      simp only [eq_self_iff_true, if_true]
      rw [hbody, statusError_of_error_field _ _ kvs s herr]
    · intro kvs hbody herr
      rw [hred]
      unfold update_profile_put
      dsimp only
      rw [hsrv]
      dsimp only
      rw [hstat]
      simp only [eq_self_iff_true, if_true]
      rw [hbody, statusError_of_no_error_field _ _ kvs herr]
    · intro hbody
      rw [hred]
      unfold update_profile_put
      dsimp only
      rw [hsrv]
      dsimp only
      rw [hstat]
      simp only [eq_self_iff_true, if_true]
      rw [hbody]
      rfl
  · intro c srv resp hsrv h200
    have hstat : (resp.status_code != 200) = true := by simp [bne_iff_ne, h200]
    refine ⟨?_, ?_, ?_⟩
    · intro kvs s hbody herr
      unfold list_attachments
      dsimp only
      rw [hsrv]
      dsimp only
      rw [hstat]
      simp only [eq_self_iff_true, if_true]
      rw [hbody, statusError_of_error_field _ _ kvs s herr]
    · intro kvs hbody herr
      unfold list_attachments
      dsimp only
      rw [hsrv]
      dsimp only
      rw [hstat]
      simp only [eq_self_iff_true, if_true]
      rw [hbody, statusError_of_no_error_field _ _ kvs herr]
    · intro hbody
      unfold list_attachments
      dsimp only
      rw [hsrv]
      dsimp only
      rw [hstat]
      simp only [eq_self_iff_true, if_true]
      rw [hbody]
      rfl
  · intro c srv attachment_id resp hsrv h200
    have hstat : (resp.status_code != 200) = true := by simp [bne_iff_ne, h200]
    refine ⟨?_, ?_, ?_⟩
    · intro kvs s hbody herr
      unfold get_attachment
      dsimp only
      rw [hsrv]
      dsimp only
      rw [hstat]
      simp only [eq_self_iff_true, if_true]
      rw [hbody, statusError_of_error_field _ _ kvs s herr]
    · intro kvs hbody herr
      unfold get_attachment
      dsimp only
      rw [hsrv]
      dsimp only
      rw [hstat]
      simp only [eq_self_iff_true, if_true]
      rw [hbody, statusError_of_no_error_field _ _ kvs herr]
    · intro hbody
      unfold get_attachment
      dsimp only
      rw [hsrv]
      dsimp only
      rw [hstat]
      simp only [eq_self_iff_true, if_true]
      rw [hbody]
      rfl
  · intro c srv attachment_id resp hsrv h204
    have hstat : (resp.status_code != 204) = true := by simp [bne_iff_ne, h204]
    refine ⟨?_, ?_, ?_⟩
    · intro kvs s hbody herr
      unfold delete_attachment
      dsimp only
      rw [hsrv]
      dsimp only
      rw [hstat]
      simp only [eq_self_iff_true, if_true]
      rw [hbody, statusError_of_error_field _ _ kvs s herr]
    · intro kvs hbody herr
      unfold delete_attachment
      dsimp only
      rw [hsrv]
      dsimp only
      rw [hstat]
      simp only [eq_self_iff_true, if_true]
      rw [hbody, statusError_of_no_error_field _ _ kvs herr]
    · intro hbody
      unfold delete_attachment
      dsimp only
      rw [hsrv]
      dsimp only
      rw [hstat]
      simp only [eq_self_iff_true, if_true]
      rw [hbody]
      rfl
  · intro c srv fs message recipients filenames attachments_as_bytes v vers bld hasV2
      resp hinfo hu hv hcap hfiles hleg hpost h201
    have hstat : (resp.status_code != 201) = true := by simp [bne_iff_ne, h201]
    have hred : ∃ data, send_message c srv fs message recipients filenames
        attachments_as_bytes = send_post c srv
          (if hasV2 then c.base_url ++ "/v2/send" else c.base_url ++ "/v1/send")
          data [aboutRequest c] := by
      cases hasV2
      · have hnm := hcap rfl
        rw [send_message_eq_after_check_nomulti c srv fs message recipients filenames
          attachments_as_bytes v vers bld hinfo hu hnm]
        rcases filenames with _ | fns
        · exact ⟨_, after_check_legacy_none c srv fs message recipients
            attachments_as_bytes vers [aboutRequest c] hv⟩
        · rcases fns with _ | ⟨f, rest⟩
          · exact ⟨_, after_check_legacy_nil c srv fs message recipients
              attachments_as_bytes vers [aboutRequest c] hv⟩
          · rcases rest with _ | ⟨f2, rest2⟩
            · have hf : (fs f).isSome = true := hleg rfl
              rcases Option.isSome_iff_exists.mp hf with ⟨content, hfc⟩
              exact ⟨_, after_check_legacy_one c srv fs message recipients f content
                attachments_as_bytes vers [aboutRequest c] hv hfc⟩
            · exfalso
              have hnm2 : decide ((f :: f2 :: rest2).length > 1) = false := hnm
              have hlen : (f :: f2 :: rest2).length > 1 := by
                simp only [List.length_cons]
                omega
              rw [decide_eq_true hlen] at hnm2
              cases hnm2
      · rcases hfiles rfl with ⟨contents, hread⟩
        rw [send_message_eq_after_check_v2 c srv fs message recipients filenames
          attachments_as_bytes v vers bld hinfo hu hv]
        exact ⟨_, after_check_v2 c srv fs message recipients filenames
          attachments_as_bytes vers [aboutRequest c] contents hv hread⟩
    obtain ⟨data, hred⟩ := hred
    refine ⟨?_, ?_, ?_⟩
    · intro kvs s hbody herr
      rw [hred]
      unfold send_post
      dsimp only
      rw [hpost _ rfl]
      dsimp only
      rw [hstat]
      simp only [eq_self_iff_true, if_true]
      rw [hbody, statusError_of_error_field _ _ kvs s herr]
    · intro kvs hbody herr
      rw [hred]
      unfold send_post
      dsimp only
      rw [hpost _ rfl]
      dsimp only
      rw [hstat]
      simp only [eq_self_iff_true, if_true]
      rw [hbody, statusError_of_no_error_field _ _ kvs herr]
    · intro hbody
      rw [hred]
      unfold send_post
      dsimp only
      rw [hpost _ rfl]
      dsimp only
      rw [hstat]
      simp only [eq_self_iff_true, if_true]
      rw [hbody]
      rfl

/-- A server answering everything with 400 and the body `{"error": "boom"}`. -/
def srvBoom : Server := fun _ => some ⟨400, some (.dict [("error", .str "boom")]), []⟩

/-- C6 witness: the amended theorem applied to a concrete `create_group`
against a 400 response carrying an "error" field. -/
theorem status_error_extraction_witness :
    (create_group cEx srvBoom "grp" ["+4917611111111"]).result =
      .error (.apiError (.str "boom") Option.none) :=
  ((status_error_extraction.1 cEx srvBoom "grp" ["+4917611111111"]
    ⟨400, some (.dict [("error", .str "boom")]), []⟩ rfl (by decide) (by decide)).1
    [("error", .str "boom")] "boom" rfl rfl)

/-! ## C9 -/

/-- Function `mode` leaves the client unchanged. -/
theorem mode_self (c : SignalCliRestApi) (srv : Server) : (mode c srv).self = c := by
  unfold mode
  dsimp only
  repeat (first | rfl | split)

/-- Function `create_group` leaves the client unchanged. -/
theorem create_group_self (c : SignalCliRestApi) (srv : Server) (name : String)
    (members : List String) : (create_group c srv name members).self = c := by
  unfold create_group
  dsimp only
  repeat (first | rfl | split)

/-- Function `list_groups` leaves the client unchanged. -/
theorem list_groups_self (c : SignalCliRestApi) (srv : Server) :
    (list_groups c srv).self = c := by
  unfold list_groups
  dsimp only
  repeat (first | rfl | split)

/-- Function `receive` leaves the client unchanged. -/
theorem receive_self (c : SignalCliRestApi) (srv : Server) :
    (receive c srv).self = c := by
  unfold receive
  dsimp only
  repeat (first | rfl | split)

/-- The PUT phase of `update_profile` leaves the client unchanged. -/
theorem update_profile_put_self (c : SignalCliRestApi) (srv : Server) (data : PyVal) :
    (update_profile_put c srv data).self = c := by
  unfold update_profile_put
  dsimp only
  repeat (first | rfl | split)

/-- Function `update_profile` leaves the client unchanged. -/
theorem update_profile_self (c : SignalCliRestApi) (srv : Server) (fs : FileSystem)
    (name : String) (filename : Option String) :
    (update_profile c srv fs name filename).self = c := by
  unfold update_profile
  dsimp only
  repeat (first | rfl | exact update_profile_put_self _ _ _ | split)

/-- The post-check phase of `send_message` leaves the client unchanged. -/
theorem after_check_self (c : SignalCliRestApi) (srv : Server) (fs : FileSystem)
    (message : String) (recipients : List String) (filenames : Option (List String))
    (attachments_as_bytes : Option (List (List Nat))) (vers : PyVal)
    (tr : List HttpRequest) :
    (send_message_after_check c srv fs message recipients filenames
      attachments_as_bytes vers tr).self = c := by
  unfold send_message_after_check
  dsimp only
  repeat (first | rfl | exact send_post_self _ _ _ _ _ | split)

/-- Function `send_message` leaves the client unchanged. -/
theorem send_message_self (c : SignalCliRestApi) (srv : Server) (fs : FileSystem)
    (message : String) (recipients : List String) (filenames : Option (List String))
    (attachments_as_bytes : Option (List (List Nat))) :
    (send_message c srv fs message recipients filenames attachments_as_bytes).self = c := by
  unfold send_message
  repeat (first | rfl | exact after_check_self _ _ _ _ _ _ _ _ _ | split)

/-- Function `list_attachments` leaves the client unchanged. -/
theorem list_attachments_self (c : SignalCliRestApi) (srv : Server) :
    (list_attachments c srv).self = c := by
  unfold list_attachments
  dsimp only
  repeat (first | rfl | split)

/-- Function `get_attachment` leaves the client unchanged. -/
theorem get_attachment_self (c : SignalCliRestApi) (srv : Server)
    (attachment_id : String) : (get_attachment c srv attachment_id).self = c := by
  unfold get_attachment
  dsimp only
  repeat (first | rfl | split)

/-- Function `delete_attachment` leaves the client unchanged. -/
theorem delete_attachment_self (c : SignalCliRestApi) (srv : Server)
    (attachment_id : String) : (delete_attachment c srv attachment_id).self = c := by
  unfold delete_attachment
  dsimp only
  repeat (first | rfl | split)

/-- C9: the client configuration (base address, sender number, credentials,
verify-TLS flag) set at construction is left unchanged by every public
operation: the post-call `self` equals the client at construction. -/
theorem client_config_immutable :
    (∀ (c : SignalCliRestApi) (srv : Server), (api_info c srv).self = c)
    ∧ (∀ (c : SignalCliRestApi) (srv : Server), (mode c srv).self = c)
    ∧ (∀ (c : SignalCliRestApi) (srv : Server) (name : String)
        (members : List String), (create_group c srv name members).self = c)
    ∧ (∀ (c : SignalCliRestApi) (srv : Server), (list_groups c srv).self = c)
    ∧ (∀ (c : SignalCliRestApi) (srv : Server), (receive c srv).self = c)
    ∧ (∀ (c : SignalCliRestApi) (srv : Server) (fs : FileSystem) (name : String)
        (filename : Option String), (update_profile c srv fs name filename).self = c)
    ∧ (∀ (c : SignalCliRestApi) (srv : Server) (fs : FileSystem) (message : String)
        (recipients : List String) (filenames : Option (List String))
        (attachments_as_bytes : Option (List (List Nat))),
        (send_message c srv fs message recipients filenames
          attachments_as_bytes).self = c)
    ∧ (∀ (c : SignalCliRestApi) (srv : Server), (list_attachments c srv).self = c)
    ∧ (∀ (c : SignalCliRestApi) (srv : Server) (attachment_id : String),
        (get_attachment c srv attachment_id).self = c)
    ∧ (∀ (c : SignalCliRestApi) (srv : Server) (attachment_id : String),
        (delete_attachment c srv attachment_id).self = c) :=
  ⟨api_info_self, mode_self, create_group_self, list_groups_self, receive_self,
    update_profile_self, send_message_self, list_attachments_self,
    get_attachment_self, delete_attachment_self⟩
